import Mathlib

/-!
Shallow embedding of the eventing-kafka distributed-channel controller core:
the KafkaSecret Status Aggregator (package kafkasecret, `reconcileKafkaChannelStatus`
and `updateKafkaChannelStatus`) and the KafkaChannel dispatcher Reconciliation
Engine (package kafkachannel, `reconcileDispatcher` and its service/deployment
sub-reconcilers).  Go structs become Lean structures, the Kubernetes object
store becomes an explicit world state threaded through each function, and every
store call is recorded in an event trace so that claims about which API calls
are issued can be stated and proved.
-/

namespace EventingKafka

/-! ## Conditions and KafkaChannel status

Modelled from the spec: the KafkaChannel status helper methods
(`MarkServiceTrue`, `MarkServiceFailed`, `MarkEndpointsTrue`,
`MarkEndpointsFailed`, `MarkDispatcherFailed`, `MarkDispatcherUnknown`,
`PropagateDispatcherStatus`) live in the external versioned wire types
(`knative.dev/eventing-kafka/pkg/apis/messaging/v1beta1`), not under src/.
The spec describes the status as a small set of named leaf conditions, each
holding state True|False|Unknown plus reason and message strings. -/

inductive CondState
  | isTrue
  | isFalse
  | unknown
deriving DecidableEq, Repr

structure Condition where
  state : CondState
  reason : String
  message : String
deriving DecidableEq, Repr

/-- The leaf conditions of a KafkaChannel status that the code under src/
touches: `Service` and `Endpoints` (written by the Status Aggregator) and
`Dispatcher` (written by the Reconciliation Engine). -/
structure KafkaChannelStatus where
  service : Condition
  endpoints : Condition
  dispatcher : Condition
deriving DecidableEq, Repr

def KafkaChannelStatus.markServiceTrue (st : KafkaChannelStatus) : KafkaChannelStatus :=
  { st with service := ⟨CondState.isTrue, "", ""⟩ }

def KafkaChannelStatus.markServiceFailed (st : KafkaChannelStatus) (reason message : String) : KafkaChannelStatus :=
  { st with service := ⟨CondState.isFalse, reason, message⟩ }

def KafkaChannelStatus.markEndpointsTrue (st : KafkaChannelStatus) : KafkaChannelStatus :=
  { st with endpoints := ⟨CondState.isTrue, "", ""⟩ }

def KafkaChannelStatus.markEndpointsFailed (st : KafkaChannelStatus) (reason message : String) : KafkaChannelStatus :=
  { st with endpoints := ⟨CondState.isFalse, reason, message⟩ }

def KafkaChannelStatus.markDispatcherFailed (st : KafkaChannelStatus) (reason message : String) : KafkaChannelStatus :=
  { st with dispatcher := ⟨CondState.isFalse, reason, message⟩ }

def KafkaChannelStatus.markDispatcherUnknown (st : KafkaChannelStatus) (reason message : String) : KafkaChannelStatus :=
  { st with dispatcher := ⟨CondState.unknown, reason, message⟩ }

/-- Live health of a Kubernetes Deployment (appsv1.DeploymentStatus), reduced
to the replica/availability counts the spec says are fed back into channel
status. -/
structure DeploymentStatus where
  replicas : Nat
  availableReplicas : Nat
deriving DecidableEq, Repr

/-- Modelled from the spec: `PropagateDispatcherStatus` copies the deployment's
live availability into the channel's `Dispatcher` condition (True when the
deployment reports available replicas, False otherwise). -/
def KafkaChannelStatus.propagateDispatcherStatus (st : KafkaChannelStatus) (ds : DeploymentStatus) : KafkaChannelStatus :=
  if 0 < ds.availableReplicas then
    { st with dispatcher := ⟨CondState.isTrue, "", ""⟩ }
  else
    { st with dispatcher := ⟨CondState.isFalse, "DispatcherDeploymentUnavailable", "Dispatcher Deployment Unavailable"⟩ }

/-! ## KafkaChannel objects -/

/-- A KafkaChannel object as stored in the object store: identity
(namespace `ns`, `name`), metadata labels, an optimistic-concurrency resource
version, and the status.  (`namespace` is a Lean keyword, hence the field
name `ns`.) -/
structure KafkaChannel where
  ns : String
  name : String
  labels : List (String × String)
  resourceVersion : Nat
  status : KafkaChannelStatus
deriving DecidableEq, Repr

/-! ## Label selectors

Embedding of `k8s.io/apimachinery/pkg/labels`: `NewSelector` returns an empty
selector, `Add` has a VALUE receiver and RETURNS a new selector (it never
mutates the receiver), and an empty selector matches every label set.  A
requirement here is the only form the source builds: key Equals value. -/

structure Requirement where
  key : String
  value : String
deriving DecidableEq, Repr

abbrev Selector := List Requirement

def Selector.newSelector : Selector := []

/-- `labels.Selector.Add`: returns a NEW selector with the requirement
appended; the receiver is left unchanged (value semantics in Go). -/
def Selector.add (s : Selector) (r : Requirement) : Selector := s ++ [r]

def Requirement.matchesLabels (r : Requirement) (ls : List (String × String)) : Bool :=
  match ls.lookup r.key with
  | some v => v == r.value
  | none => false

def Selector.matchesLabels (s : Selector) (ls : List (String × String)) : Bool :=
  s.all (fun r => r.matchesLabels ls)

/-! ## The channel object store

The Kubernetes API server / informer cache for KafkaChannels, modelled as a
list of channels plus an injected fault table for `UpdateStatus` calls
(standing for the external API's transient or conflict failures on a given
channel key).  `UpdateStatus` otherwise succeeds exactly when the submitted
object's resource version matches the stored one, bumping the version —
the optimistic-concurrency discipline of the real store. -/

inductive StoreError
  | notFound
  | conflict
  | transient
deriving DecidableEq, Repr

structure ChannelWorld where
  channels : List KafkaChannel
  updateFaults : List ((String × String) × StoreError)
deriving DecidableEq, Repr

def findChannelIn : List KafkaChannel → String → String → Option KafkaChannel
  | [], _, _ => none
  | c :: rest, n1, n2 => if c.ns = n1 ∧ c.name = n2 then some c else findChannelIn rest n1 n2

def replaceChannelIn (l : List KafkaChannel) (c : KafkaChannel) : List KafkaChannel :=
  l.map (fun s => if s.ns = c.ns ∧ s.name = c.name then c else s)

/-- `kafkachannelLister.KafkaChannels(ns).Get(name)`. -/
def ChannelWorld.findChannel (w : ChannelWorld) (ns name : String) : Option KafkaChannel :=
  findChannelIn w.channels ns name

/-- `KafkaChannels(ns).UpdateStatus(ctx, ch, ...)`: injected fault if one is
scheduled for this key, conflict on resource-version mismatch, otherwise the
stored copy is replaced and its resource version bumped. -/
def ChannelWorld.updateStatusCall (w : ChannelWorld) (c : KafkaChannel) : Except StoreError ChannelWorld :=
  match w.updateFaults.lookup (c.ns, c.name) with
  | some e => Except.error e
  | none =>
    match findChannelIn w.channels c.ns c.name with
    | none => Except.error StoreError.notFound
    | some stored =>
      if stored.resourceVersion = c.resourceVersion then
        Except.ok { w with channels := replaceChannelIn w.channels { c with resourceVersion := c.resourceVersion + 1 } }
      else
        Except.error StoreError.conflict

/-- Trace of channel-store API calls issued by the Status Aggregator. -/
inductive ChannelApiEvent
  | listChannels (selector : Selector)
  | getChannel (ns name : String)
  | updateStatus (submitted : KafkaChannel)
deriving DecidableEq, Repr

def ChannelApiEvent.isUpdate : ChannelApiEvent → Bool
  | ChannelApiEvent.updateStatus _ => true
  | _ => false

def countUpdateCalls (evs : List ChannelApiEvent) : Nat :=
  (evs.filter ChannelApiEvent.isUpdate).length

/-! ## Status Aggregator (package kafkasecret) -/

/-- `constants.KafkaSecretLabel` (external constant; exact value immaterial). -/
def kafkaSecretLabel : String := "eventing-kafka.knative.dev/kafka-secret"

/-- Lines 109-127 of `updateKafkaChannelStatus`: the status mutation applied
to a (deep-copied) channel — mark `Service` True/Failed from the service
state, mark `Endpoints` True/Failed from the deployment state. -/
def computeKafkaChannelStatus (st : KafkaChannelStatus)
    (serviceValid : Bool) (serviceReason serviceMessage : String)
    (deploymentValid : Bool) (deploymentReason deploymentMessage : String) : KafkaChannelStatus :=
  let st1 := if serviceValid then st.markServiceTrue else st.markServiceFailed serviceReason serviceMessage
  if deploymentValid then st1.markEndpointsTrue else st1.markEndpointsFailed deploymentReason deploymentMessage

structure AttemptResult where
  world : ChannelWorld
  events : List ChannelApiEvent
  result : Except StoreError Unit
deriving Repr

/-- Lines 106-147 of `updateKafkaChannelStatus`: clone the current copy, apply
the status mutation, and — only if the status changed under structural
equality (`equality.Semantic.DeepEqual`) — issue the `UpdateStatus` call. -/
def applyStatusUpdate (w : ChannelWorld) (copy : KafkaChannel)
    (serviceValid : Bool) (serviceReason serviceMessage : String)
    (deploymentValid : Bool) (deploymentReason deploymentMessage : String) : AttemptResult :=
  let updatedChannel := { copy with
    status := computeKafkaChannelStatus copy.status serviceValid serviceReason serviceMessage
      deploymentValid deploymentReason deploymentMessage }
  if updatedChannel.status = copy.status then
    ⟨w, [], Except.ok ()⟩
  else
    match w.updateStatusCall updatedChannel with
    | Except.ok w2 => ⟨w2, [ChannelApiEvent.updateStatus updatedChannel], Except.ok ()⟩
    | Except.error e => ⟨w, [ChannelApiEvent.updateStatus updatedChannel], Except.error e⟩

/-- One execution of the closure passed to `reconciler.RetryUpdateConflicts`
(lines 93-148): after the first attempt the channel is reloaded from the
lister before the mutation is recomputed.  Returns the attempt's outcome and
the (possibly reassigned) `originalChannel` variable. -/
def updateStatusOnce (w : ChannelWorld) (attempts : Nat) (originalChannel : KafkaChannel)
    (serviceValid : Bool) (serviceReason serviceMessage : String)
    (deploymentValid : Bool) (deploymentReason deploymentMessage : String) :
    AttemptResult × KafkaChannel :=
  if attempts > 0 then
    match w.findChannel originalChannel.ns originalChannel.name with
    | none =>
      (⟨w, [ChannelApiEvent.getChannel originalChannel.ns originalChannel.name], Except.error StoreError.notFound⟩,
        originalChannel)
    | some fresh =>
      let r := applyStatusUpdate w fresh serviceValid serviceReason serviceMessage
        deploymentValid deploymentReason deploymentMessage
      (⟨r.world, ChannelApiEvent.getChannel originalChannel.ns originalChannel.name :: r.events, r.result⟩, fresh)
  else
    (applyStatusUpdate w originalChannel serviceValid serviceReason serviceMessage
      deploymentValid deploymentReason deploymentMessage, originalChannel)

/-- Modelled from the spec: `reconciler.RetryUpdateConflicts`
(knative.dev/pkg, not under src/) runs the closure with an attempt counter,
retrying only on conflict responses, bounded by a fixed maximum attempt count
(client-go's default retry, 5 steps). -/
def retrySteps : Nat := 5

def retryUpdateStatus (serviceValid : Bool) (serviceReason serviceMessage : String)
    (deploymentValid : Bool) (deploymentReason deploymentMessage : String) :
    Nat → Nat → ChannelWorld → KafkaChannel → AttemptResult
  | 0, _, w, _ => ⟨w, [], Except.error StoreError.conflict⟩
  | fuel + 1, attempts, w, originalChannel =>
    let step := updateStatusOnce w attempts originalChannel serviceValid serviceReason serviceMessage
      deploymentValid deploymentReason deploymentMessage
    match step.1.result with
    | Except.error StoreError.conflict =>
      let rest := retryUpdateStatus serviceValid serviceReason serviceMessage
        deploymentValid deploymentReason deploymentMessage fuel (attempts + 1) step.1.world step.2
      ⟨rest.world, step.1.events ++ rest.events, rest.result⟩
    | r => ⟨step.1.world, step.1.events, r⟩

/-- `updateKafkaChannelStatus` (lines 85-149): update a single KafkaChannel's
status under the bounded retry-on-conflict combinator. -/
def updateKafkaChannelStatus (w : ChannelWorld) (originalChannel : KafkaChannel)
    (serviceValid : Bool) (serviceReason serviceMessage : String)
    (deploymentValid : Bool) (deploymentReason deploymentMessage : String) : AttemptResult :=
  retryUpdateStatus serviceValid serviceReason serviceMessage
    deploymentValid deploymentReason deploymentMessage retrySteps 0 w originalChannel

/-- Per-channel fan-out loop of `reconcileKafkaChannelStatus` (lines 64-74):
every listed channel is processed regardless of earlier failures; a per-channel
success flag is kept (Go: `statusUpdateErrors`). -/
def fanoutLoop (serviceValid : Bool) (serviceReason serviceMessage : String)
    (deploymentValid : Bool) (deploymentReason deploymentMessage : String) :
    List KafkaChannel → ChannelWorld →
    ChannelWorld × List ChannelApiEvent × List ((String × String) × Bool)
  | [], w => (w, [], [])
  | ch :: rest, w =>
    let res := updateKafkaChannelStatus w ch serviceValid serviceReason serviceMessage
      deploymentValid deploymentReason deploymentMessage
    let ok : Bool := match res.result with
      | Except.ok _ => true
      | Except.error _ => false
    let tail := fanoutLoop serviceValid serviceReason serviceMessage
      deploymentValid deploymentReason deploymentMessage rest res.world
    (tail.1, res.events ++ tail.2.1, ((ch.ns, ch.name), ok) :: tail.2.2)

structure FanoutResult where
  world : ChannelWorld
  events : List ChannelApiEvent
  listed : List KafkaChannel
  perChannel : List ((String × String) × Bool)
  result : Except String Unit
deriving Repr

/-- `reconcileKafkaChannelStatus` (lines 40-82): build a selector requirement
for the Kafka-secret identity label (NOTE: as in the Go source, the result of
`Selector.add` is discarded — `labels.Selector.Add` has a value receiver), list
the KafkaChannels matching the selector across all namespaces, update each
listed channel's status, and report a single aggregate error if any update
failed. -/
def reconcileKafkaChannelStatus (w : ChannelWorld) (secretName : String)
    (serviceValid : Bool) (serviceReason serviceMessage : String)
    (deploymentValid : Bool) (deploymentReason deploymentMessage : String) : FanoutResult :=
  let selector := Selector.newSelector
  let requirement : Requirement := ⟨kafkaSecretLabel, secretName⟩
  let _ := selector.add requirement
  let kafkaChannels := w.channels.filter (fun c => selector.matchesLabels c.labels)
  let loop := fanoutLoop serviceValid serviceReason serviceMessage
    deploymentValid deploymentReason deploymentMessage kafkaChannels w
  { world := loop.1
    events := ChannelApiEvent.listChannels selector :: loop.2.1
    listed := kafkaChannels
    perChannel := loop.2.2
    result :=
      if loop.2.2.any (fun p => !p.2) then
        Except.error "failed to update Status of one or more KafkaChannels"
      else
        Except.ok () }

/-- What the spec (and the source's own comments) say the list step selects:
exactly the channels whose Kafka-secret identity label equals the secret's
name.  Stated with the selector the code MEANT to use, i.e. the empty selector
with the requirement actually added. -/
def channelsMatchingSecret (channels : List KafkaChannel) (secretName : String) : List KafkaChannel :=
  channels.filter
    (fun c => (Selector.newSelector.add ⟨kafkaSecretLabel, secretName⟩).matchesLabels c.labels)

/-! ## Reconciliation Engine (package kafkachannel)

External constants referenced by the engine.  Those below are drawn from
`pkg/channel/distributed/common/constants`, `controller/constants`,
`common/env`, `controller/event` and `knative.dev/pkg` — packages not under
src/.  Their exact string values are immaterial to the claims; the definitions
record that each is a fixed constant. -/

def knativeEventingNamespace : String := "knative-eventing"
def kafkaChannelDispatcherLabel : String := "eventing-kafka.knative.dev/kafka-channel-dispatcher"
def kafkaChannelNameLabel : String := "eventing-kafka.knative.dev/kafka-channel-name"
def kafkaChannelNamespaceLabel : String := "eventing-kafka.knative.dev/kafka-channel-namespace"
def k8sAppDispatcherSelectorLabel : String := "k8s-app"
def k8sAppDispatcherSelectorValue : String := "eventing-kafka-channels"
def appLabel : String := "app"
def metricsPortName : String := "metrics"
def dispatcherContainerName : String := "eventing-kafka-dispatcher"
def healthPort : Nat := 8082
def loggingConfigMapName : String := "config-logging"

def namespaceEnvKey : String := "SYSTEM_NAMESPACE"
def podNameEnvVarKey : String := "POD_NAME"
def containerNameEnvVarKey : String := "CONTAINER_NAME"
def knativeLoggingConfigMapNameEnvVarKey : String := "CONFIG_LOGGING_NAME"
def metricsPortEnvVarKey : String := "METRICS_PORT"
def metricsDomainEnvVarKey : String := "METRICS_DOMAIN"
def healthPortEnvVarKey : String := "HEALTH_PORT"
def channelKeyEnvVarKey : String := "CHANNEL_KEY"
def serviceNameEnvVarKey : String := "SERVICE_NAME"
def kafkaTopicEnvVarKey : String := "KAFKA_TOPIC"
def kafkaBrokerEnvVarKey : String := "KAFKA_BROKERS"
def kafkaUsernameEnvVarKey : String := "KAFKA_USERNAME"
def kafkaPasswordEnvVarKey : String := "KAFKA_PASSWORD"
def kafkaSecretDataKeyBrokers : String := "brokers"
def kafkaSecretDataKeyUsername : String := "username"
def kafkaSecretDataKeyPassword : String := "password"

/-- `event.DispatcherServiceReconciliationFailed.String()` (external enum). -/
def dispatcherServiceReconciliationFailed : String := "DispatcherServiceReconciliationFailed"

/-- `event.DispatcherDeploymentReconciliationFailed.String()` (external enum). -/
def dispatcherDeploymentReconciliationFailed : String := "DispatcherDeploymentReconciliationFailed"

/-- Modelled from the spec: `util.TopicName` (controller/util, not under src/)
— the derived topic identity "namespace.name" of a channel. -/
def topicName (channel : KafkaChannel) : String := channel.ns ++ "." ++ channel.name

/-- Modelled from the spec: `util.ChannelKey` (controller/util, not under
src/) — the "namespace/name" key of a channel. -/
def channelKey (channel : KafkaChannel) : String := channel.ns ++ "/" ++ channel.name

/-- Modelled from the spec: `util.DispatcherDnsSafeName` (controller/util, not
under src/) — a pure, deterministic, collision-safe transform of the channel's
(namespace, name), shared by lookups and construction. -/
def dispatcherDnsSafeName (channel : KafkaChannel) : String :=
  channel.ns ++ "-" ++ channel.name ++ "-dispatcher"

/-! ## Environment-variable values and sub-resource objects -/

structure SecretKeySelector where
  name : String
  key : String
deriving DecidableEq, Repr

inductive EnvVarValue
  | value (v : String)
  | fieldRef (fieldPath : String)
  | secretKeyRef (sel : SecretKeySelector)
deriving DecidableEq, Repr

structure EnvVar where
  name : String
  varValue : EnvVarValue
deriving DecidableEq, Repr

/-- A dispatcher Service object, reduced to the fields the source sets. -/
structure ServiceObj where
  ns : String
  name : String
  labels : List (String × String)
  ports : List (String × Nat)
  selector : List (String × String)
deriving DecidableEq, Repr

/-- A dispatcher Deployment object, reduced to the fields the source sets
plus the live status fed back into channel conditions. -/
structure DeploymentObj where
  ns : String
  name : String
  labels : List (String × String)
  replicas : Nat
  serviceAccount : String
  image : String
  env : List EnvVar
  status : DeploymentStatus
deriving DecidableEq, Repr

/-- `r.environment` (environment configuration, external). -/
structure Environment where
  metricsPort : Nat
  metricsDomain : String
  dispatcherImage : String
  serviceAccount : String
deriving DecidableEq, Repr

/-- `r.config.Dispatcher` (dispatcher section of the eventing-kafka config). -/
structure DispatcherConfig where
  replicas : Nat
  cpuLimit : String
  cpuRequest : String
  memoryLimit : String
  memoryRequest : String
deriving DecidableEq, Repr

/-- The engine's reconciler receiver: environment, dispatcher config, and the
secret-to-name resolution collaborator `adminClient.GetKafkaSecretName`
(returns the bound secret's name, or empty if unbound). -/
structure Reconciler where
  environment : Environment
  dispatcher : DispatcherConfig
  getKafkaSecretName : String → String

/-! ## The engine's object-store world

Services and deployments live in the Knative eventing system namespace; get
and create calls can fail through injected faults standing for the external
API's transient failures. -/

structure EngineWorld where
  services : List ServiceObj
  deployments : List DeploymentObj
  serviceGetFault : Option StoreError
  deploymentGetFault : Option StoreError
  serviceCreateFault : Option StoreError
  deploymentCreateFault : Option StoreError
deriving Repr

def findServiceIn : List ServiceObj → String → String → Option ServiceObj
  | [], _, _ => none
  | s :: rest, n1, n2 => if s.ns = n1 ∧ s.name = n2 then some s else findServiceIn rest n1 n2

def findDeploymentIn : List DeploymentObj → String → String → Option DeploymentObj
  | [], _, _ => none
  | d :: rest, n1, n2 => if d.ns = n1 ∧ d.name = n2 then some d else findDeploymentIn rest n1 n2

/-- `serviceLister.Services(ns).Get(name)`. -/
def EngineWorld.getService (w : EngineWorld) (ns name : String) : Except StoreError ServiceObj :=
  match w.serviceGetFault with
  | some e => Except.error e
  | none =>
    match findServiceIn w.services ns name with
    | some s => Except.ok s
    | none => Except.error StoreError.notFound

/-- `deploymentLister.Deployments(ns).Get(name)`. -/
def EngineWorld.getDeployment (w : EngineWorld) (ns name : String) : Except StoreError DeploymentObj :=
  match w.deploymentGetFault with
  | some e => Except.error e
  | none =>
    match findDeploymentIn w.deployments ns name with
    | some d => Except.ok d
    | none => Except.error StoreError.notFound

/-- `kubeClientset.CoreV1().Services(ns).Create(...)`. -/
def EngineWorld.createService (w : EngineWorld) (s : ServiceObj) : Except StoreError EngineWorld :=
  match w.serviceCreateFault with
  | some e => Except.error e
  | none => Except.ok { w with services := w.services ++ [s] }

/-- `kubeClientset.AppsV1().Deployments(ns).Create(...)`. -/
def EngineWorld.createDeployment (w : EngineWorld) (d : DeploymentObj) : Except StoreError EngineWorld :=
  match w.deploymentCreateFault with
  | some e => Except.error e
  | none => Except.ok { w with deployments := w.deployments ++ [d] }

/-- Trace of API calls and recorder events issued by the engine. -/
inductive EngineEvent
  | getService (ns name : String)
  | createService (s : ServiceObj)
  | getDeployment (ns name : String)
  | createDeployment (d : DeploymentObj)
  | warningEvent (reason : String)
deriving DecidableEq, Repr

/-- Errors returned by the engine's sub-reconcilers: a store error, or the
configuration error produced while generating the deployment model. -/
inductive RecError
  | store (e : StoreError)
  | config (msg : String)
deriving DecidableEq, Repr

/-! ## Desired-State Builder -/

/-- `dispatcherDeploymentEnvVars` (lines 469-569): the 10 fixed environment
variables, then — only when the admin client resolves a non-empty secret name
for the channel's topic — the 3 secret-indirected variables (brokers,
username, password), each a `SecretKeyRef` into a named data field of the
bound secret.  An empty resolved secret name is a configuration error: no
partial list is returned. -/
def dispatcherDeploymentEnvVars (r : Reconciler) (channel : KafkaChannel) :
    Except String (List EnvVar) :=
  let topic := topicName channel
  let envVars : List EnvVar :=
    [ ⟨namespaceEnvKey, EnvVarValue.value knativeEventingNamespace⟩,
      ⟨podNameEnvVarKey, EnvVarValue.fieldRef "metadata.name"⟩,
      ⟨containerNameEnvVarKey, EnvVarValue.value dispatcherContainerName⟩,
      ⟨knativeLoggingConfigMapNameEnvVarKey, EnvVarValue.value loggingConfigMapName⟩,
      ⟨metricsPortEnvVarKey, EnvVarValue.value (toString r.environment.metricsPort)⟩,
      ⟨metricsDomainEnvVarKey, EnvVarValue.value r.environment.metricsDomain⟩,
      ⟨healthPortEnvVarKey, EnvVarValue.value (toString healthPort)⟩,
      ⟨channelKeyEnvVarKey, EnvVarValue.value (channelKey channel)⟩,
      ⟨serviceNameEnvVarKey, EnvVarValue.value (dispatcherDnsSafeName channel)⟩,
      ⟨kafkaTopicEnvVarKey, EnvVarValue.value topic⟩ ]
  let kafkaSecret := r.getKafkaSecretName topic
  if kafkaSecret.length ≤ 0 then
    Except.error ("invalid kafkaSecret for topic " ++ topic)
  else
    Except.ok (envVars ++
      [ ⟨kafkaBrokerEnvVarKey, EnvVarValue.secretKeyRef ⟨kafkaSecret, kafkaSecretDataKeyBrokers⟩⟩,
        ⟨kafkaUsernameEnvVarKey, EnvVarValue.secretKeyRef ⟨kafkaSecret, kafkaSecretDataKeyUsername⟩⟩,
        ⟨kafkaPasswordEnvVarKey, EnvVarValue.secretKeyRef ⟨kafkaSecret, kafkaSecretDataKeyPassword⟩⟩ ])

/-- `newDispatcherService` (lines 272-309): the dispatcher Service model —
deterministic name, fixed Knative eventing namespace, owning-channel labels, a
single metrics port, and a selector matching the deployment's app label. -/
def newDispatcherService (r : Reconciler) (channel : KafkaChannel) : ServiceObj :=
  let serviceName := dispatcherDnsSafeName channel
  { ns := knativeEventingNamespace
    name := serviceName
    labels :=
      [ (kafkaChannelDispatcherLabel, "true"),
        (kafkaChannelNameLabel, channel.name),
        (kafkaChannelNamespaceLabel, channel.ns),
        (k8sAppDispatcherSelectorLabel, k8sAppDispatcherSelectorValue) ]
    ports := [(metricsPortName, r.environment.metricsPort)]
    selector := [(appLabel, serviceName)] }

/-- `newDispatcherDeployment` (lines 372-466): the dispatcher Deployment model
— deterministic name, fixed Knative eventing namespace, configured replica
count, and the container environment from `dispatcherDeploymentEnvVars`; the
builder fails (returning no deployment) when the environment variables cannot
be generated.  A freshly built deployment carries the zero initial status. -/
def newDispatcherDeployment (r : Reconciler) (channel : KafkaChannel) :
    Except String DeploymentObj :=
  let deploymentName := dispatcherDnsSafeName channel
  let replicas := r.dispatcher.replicas
  match dispatcherDeploymentEnvVars r channel with
  | Except.error e => Except.error e
  | Except.ok envVars =>
    Except.ok
      { ns := knativeEventingNamespace
        name := deploymentName
        labels :=
          [ (appLabel, deploymentName),
            (kafkaChannelDispatcherLabel, "true"),
            (kafkaChannelNameLabel, channel.name),
            (kafkaChannelNamespaceLabel, channel.ns) ]
        replicas := replicas
        serviceAccount := r.environment.serviceAccount
        image := r.environment.dispatcherImage
        env := envVars
        status := ⟨0, 0⟩ }

/-! ## Per-sub-resource reconciliation -/

/-- Outcome of a sub-resource reconciliation: resulting world, the (possibly
status-mutated) in-memory channel, the API-call trace, and the returned
error, if any. -/
structure SubResult where
  world : EngineWorld
  channel : KafkaChannel
  events : List EngineEvent
  err : Option RecError
deriving Repr

/-- `reconcileDispatcherService` (lines 230-256): fetch the dispatcher service
by its deterministic name in the system namespace; on not-found, build and
create it; on any other fetch error, return the error without attempting a
create.  No channel condition is touched on any path. -/
def reconcileDispatcherService (w : EngineWorld) (r : Reconciler) (channel : KafkaChannel) :
    SubResult :=
  let serviceName := dispatcherDnsSafeName channel
  let getEv := EngineEvent.getService knativeEventingNamespace serviceName
  match w.getService knativeEventingNamespace serviceName with
  | Except.error StoreError.notFound =>
    let service := newDispatcherService r channel
    match w.createService service with
    | Except.error e =>
      ⟨w, channel, [getEv, EngineEvent.createService service], some (RecError.store e)⟩
    | Except.ok w2 =>
      ⟨w2, channel, [getEv, EngineEvent.createService service], none⟩
  | Except.error e => ⟨w, channel, [getEv], some (RecError.store e)⟩
  | Except.ok _ => ⟨w, channel, [getEv], none⟩

/-- `reconcileDispatcherDeployment` (lines 316-356): fetch the dispatcher
deployment; on not-found, generate the model (marking `Dispatcher` Failed and
stopping on a generation error), create it and propagate the created object's
initial status; on any other fetch error, mark `Dispatcher` Unknown and return
the error without attempting a create; on fetch success, propagate the live
deployment status into the channel's `Dispatcher` condition. -/
def reconcileDispatcherDeployment (w : EngineWorld) (r : Reconciler) (channel : KafkaChannel) :
    SubResult :=
  let deploymentName := dispatcherDnsSafeName channel
  let getEv := EngineEvent.getDeployment knativeEventingNamespace deploymentName
  match w.getDeployment knativeEventingNamespace deploymentName with
  | Except.error StoreError.notFound =>
    match newDispatcherDeployment r channel with
    | Except.error msg =>
      ⟨w,
        { channel with status := (channel.status.markDispatcherFailed
            dispatcherDeploymentReconciliationFailed
            ("Failed To Generate Dispatcher Deployment: " ++ msg)) },
        [getEv], some (RecError.config msg)⟩
    | Except.ok deployment =>
      match w.createDeployment deployment with
      | Except.error e =>
        ⟨w,
          { channel with status := (channel.status.markDispatcherFailed
              dispatcherDeploymentReconciliationFailed
              "Failed To Create Dispatcher Deployment") },
          [getEv, EngineEvent.createDeployment deployment], some (RecError.store e)⟩
      | Except.ok w2 =>
        ⟨w2,
          { channel with status := channel.status.propagateDispatcherStatus deployment.status },
          [getEv, EngineEvent.createDeployment deployment], none⟩
  | Except.error e =>
    ⟨w,
      { channel with status := (channel.status.markDispatcherUnknown
          dispatcherDeploymentReconciliationFailed
          "Failed To Get Dispatcher Deployment") },
      [getEv], some (RecError.store e)⟩
  | Except.ok deployment =>
    ⟨w,
      { channel with status := channel.status.propagateDispatcherStatus deployment.status },
      [getEv], none⟩

/-- Outcome of `reconcileDispatcher`: the aggregate error is the fixed message
of the Go source, present exactly when a sub-resource failed. -/
structure DispatchResult where
  world : EngineWorld
  channel : KafkaChannel
  events : List EngineEvent
  err : Option String
deriving Repr

/-- `reconcileDispatcher` (lines 194-223): reconcile the dispatcher service,
record a warning event on failure; then reconcile the dispatcher deployment
(always attempted, regardless of the service outcome), record a warning event
on failure; return a single aggregate error if either failed. -/
def reconcileDispatcher (w : EngineWorld) (r : Reconciler) (channel : KafkaChannel) :
    DispatchResult :=
  let sres := reconcileDispatcherService w r channel
  let sEvents :=
    match sres.err with
    | some _ => sres.events ++ [EngineEvent.warningEvent dispatcherServiceReconciliationFailed]
    | none => sres.events
  let dres := reconcileDispatcherDeployment sres.world r sres.channel
  let dEvents :=
    match dres.err with
    | some _ => dres.events ++ [EngineEvent.warningEvent dispatcherDeploymentReconciliationFailed]
    | none => dres.events
  { world := dres.world
    channel := dres.channel
    events := sEvents ++ dEvents
    err :=
      if sres.err.isSome || dres.err.isSome then
        some "failed to reconcile dispatcher resources"
      else
        none }

/-! ## Concrete fixtures for counterexamples and witnesses -/

def condUnknown : Condition := ⟨CondState.unknown, "", ""⟩

def condTrue : Condition := ⟨CondState.isTrue, "", ""⟩

def condFalse : Condition := ⟨CondState.isFalse, "SomeReason", "SomeMessage"⟩

def freshStatus : KafkaChannelStatus := ⟨condUnknown, condUnknown, condUnknown⟩

def settledStatus : KafkaChannelStatus := ⟨condTrue, condTrue, condTrue⟩

def chanA : KafkaChannel :=
  ⟨"ns1", "chan-a", [(kafkaSecretLabel, "secret-a")], 1, freshStatus⟩

def chanB : KafkaChannel :=
  ⟨"ns2", "chan-b", [(kafkaSecretLabel, "secret-b")], 1, freshStatus⟩

def chanC : KafkaChannel :=
  ⟨"ns3", "chan-c", [(kafkaSecretLabel, "secret-a")], 1, freshStatus⟩

def worldAB : ChannelWorld := ⟨[chanA, chanB], []⟩

def worldABC : ChannelWorld :=
  ⟨[chanA, chanB, chanC], [(("ns2", "chan-b"), StoreError.transient)]⟩

def chanSettled : KafkaChannel := ⟨"ns1", "chan-a", [], 1, settledStatus⟩

def chanStale : KafkaChannel := ⟨"ns1", "chan-a", [], 1, freshStatus⟩

def chanCurrent : KafkaChannel :=
  ⟨"ns1", "chan-a", [], 4, ⟨condFalse, condFalse, condTrue⟩⟩

def worldCurrent : ChannelWorld := ⟨[chanCurrent], []⟩

def worldSettled : ChannelWorld := ⟨[chanSettled], []⟩

def sampleEnvironment : Environment :=
  ⟨9090, "eventing-kafka", "example.com/dispatcher:latest", "eventing-kafka-dispatcher"⟩

def sampleDispatcherConfig : DispatcherConfig := ⟨1, "500m", "300m", "128Mi", "50Mi"⟩

def boundReconciler : Reconciler :=
  ⟨sampleEnvironment, sampleDispatcherConfig, fun _ => "kafka-secret-ns1-chan-a"⟩

def unboundReconciler : Reconciler :=
  ⟨sampleEnvironment, sampleDispatcherConfig, fun _ => ""⟩

def emptyEngineWorld : EngineWorld := ⟨[], [], none, none, none, none⟩

def chanDisp : KafkaChannel := ⟨"ns1", "chan-a", [], 1, ⟨condTrue, condTrue, condUnknown⟩⟩

def chanSvcTrue : KafkaChannel := ⟨"ns1", "chan-a", [], 1, settledStatus⟩

def chanSvcFalse : KafkaChannel := ⟨"ns1", "chan-a", [], 1, ⟨condFalse, condFalse, condFalse⟩⟩

def serviceFaultWorld : EngineWorld := ⟨[], [], some StoreError.transient, none, none, none⟩

def presentService : ServiceObj := newDispatcherService boundReconciler chanSvcFalse

def servicePresentWorld : EngineWorld := ⟨[presentService], [], none, none, none, none⟩

def presentDeployment : DeploymentObj :=
  { ns := knativeEventingNamespace
    name := dispatcherDnsSafeName chanDisp
    labels := []
    replicas := 1
    serviceAccount := "eventing-kafka-dispatcher"
    image := "example.com/dispatcher:latest"
    env := []
    status := ⟨1, 1⟩ }

def bothPresentWorld : EngineWorld :=
  ⟨[presentService], [presentDeployment], none, none, none, none⟩

def bothFaultWorld : EngineWorld :=
  ⟨[], [], some StoreError.transient, some StoreError.conflict, none, none⟩

/-! ## Theorems -/

theorem string_length_le_zero_iff (s : String) : s.length ≤ 0 ↔ s = "" := by
  constructor
  · intro hle
    have h0 : s.length = 0 := Nat.le_zero.mp hle
    cases s with
    | mk data =>
      cases data with
      | nil => rfl
      | cons c cs => simp [String.length] at h0
  · intro h
    subst h
    exact Nat.le_refl 0

/-- C1: the Status Aggregator is supposed to update exactly the channels whose
Kafka-secret identity label equals the secret's name, but the source discards
the result of `Selector.add` (a value-receiver method), so the list call uses
the empty selector and matches every channel in the store: for secret
"secret-a" with one matching and one non-matching channel, two updates are
attempted even though only one channel matches the intended selector. -/
theorem reconcileKafkaChannelStatus_attempts_unmatched_channel :
    (reconcileKafkaChannelStatus worldAB "secret-a" true "" "" true "" "").perChannel.map Prod.fst
      = [("ns1", "chan-a"), ("ns2", "chan-b")]
    ∧ (channelsMatchingSecret worldAB.channels "secret-a").map (fun c => (c.ns, c.name))
      = [("ns1", "chan-a")] := by
  exact ⟨rfl, rfl⟩

/-- C9: for a channel whose topic resolves to a non-empty secret name, the
built dispatcher environment is exactly the 10 fixed variables followed by the
3 secret-indirected ones, the latter each a `SecretKeyRef` into a named data
field of the bound secret — 13 variables in all. -/
theorem dispatcherDeploymentEnvVars_env_contract (r : Reconciler) (channel : KafkaChannel)
    (h : r.getKafkaSecretName (topicName channel) ≠ "") :
    dispatcherDeploymentEnvVars r channel = Except.ok
      [ ⟨namespaceEnvKey, EnvVarValue.value knativeEventingNamespace⟩,
        ⟨podNameEnvVarKey, EnvVarValue.fieldRef "metadata.name"⟩,
        ⟨containerNameEnvVarKey, EnvVarValue.value dispatcherContainerName⟩,
        ⟨knativeLoggingConfigMapNameEnvVarKey, EnvVarValue.value loggingConfigMapName⟩,
        ⟨metricsPortEnvVarKey, EnvVarValue.value (toString r.environment.metricsPort)⟩,
        ⟨metricsDomainEnvVarKey, EnvVarValue.value r.environment.metricsDomain⟩,
        ⟨healthPortEnvVarKey, EnvVarValue.value (toString healthPort)⟩,
        ⟨channelKeyEnvVarKey, EnvVarValue.value (channelKey channel)⟩,
        ⟨serviceNameEnvVarKey, EnvVarValue.value (dispatcherDnsSafeName channel)⟩,
        ⟨kafkaTopicEnvVarKey, EnvVarValue.value (topicName channel)⟩,
        ⟨kafkaBrokerEnvVarKey,
          EnvVarValue.secretKeyRef ⟨r.getKafkaSecretName (topicName channel), kafkaSecretDataKeyBrokers⟩⟩,
        ⟨kafkaUsernameEnvVarKey,
          EnvVarValue.secretKeyRef ⟨r.getKafkaSecretName (topicName channel), kafkaSecretDataKeyUsername⟩⟩,
        ⟨kafkaPasswordEnvVarKey,
          EnvVarValue.secretKeyRef ⟨r.getKafkaSecretName (topicName channel), kafkaSecretDataKeyPassword⟩⟩ ]
    ∧ (∀ l, dispatcherDeploymentEnvVars r channel = Except.ok l → l.length = 13) := by
  have hlen : ¬ (r.getKafkaSecretName (topicName channel)).length ≤ 0 := by
    intro hle
    exact h ((string_length_le_zero_iff _).mp hle)
  constructor
  · simp only [dispatcherDeploymentEnvVars, if_neg hlen]
    rfl
  · intro l hl
    simp only [dispatcherDeploymentEnvVars, if_neg hlen] at hl
    cases hl
    rfl

/-- Witness for C9 at a concrete channel and reconciler. -/
theorem dispatcherDeploymentEnvVars_env_contract_witness :
    boundReconciler.getKafkaSecretName (topicName chanDisp) ≠ ""
    ∧ ((dispatcherDeploymentEnvVars boundReconciler chanDisp = Except.ok
        [ ⟨namespaceEnvKey, EnvVarValue.value knativeEventingNamespace⟩,
          ⟨podNameEnvVarKey, EnvVarValue.fieldRef "metadata.name"⟩,
          ⟨containerNameEnvVarKey, EnvVarValue.value dispatcherContainerName⟩,
          ⟨knativeLoggingConfigMapNameEnvVarKey, EnvVarValue.value loggingConfigMapName⟩,
          ⟨metricsPortEnvVarKey, EnvVarValue.value (toString boundReconciler.environment.metricsPort)⟩,
          ⟨metricsDomainEnvVarKey, EnvVarValue.value boundReconciler.environment.metricsDomain⟩,
          ⟨healthPortEnvVarKey, EnvVarValue.value (toString healthPort)⟩,
          ⟨channelKeyEnvVarKey, EnvVarValue.value (channelKey chanDisp)⟩,
          ⟨serviceNameEnvVarKey, EnvVarValue.value (dispatcherDnsSafeName chanDisp)⟩,
          ⟨kafkaTopicEnvVarKey, EnvVarValue.value (topicName chanDisp)⟩,
          ⟨kafkaBrokerEnvVarKey,
            EnvVarValue.secretKeyRef ⟨boundReconciler.getKafkaSecretName (topicName chanDisp), kafkaSecretDataKeyBrokers⟩⟩,
          ⟨kafkaUsernameEnvVarKey,
            EnvVarValue.secretKeyRef ⟨boundReconciler.getKafkaSecretName (topicName chanDisp), kafkaSecretDataKeyUsername⟩⟩,
          ⟨kafkaPasswordEnvVarKey,
            EnvVarValue.secretKeyRef ⟨boundReconciler.getKafkaSecretName (topicName chanDisp), kafkaSecretDataKeyPassword⟩⟩ ])
      ∧ (∀ l, dispatcherDeploymentEnvVars boundReconciler chanDisp = Except.ok l → l.length = 13)) := by
  exact ⟨by decide, dispatcherDeploymentEnvVars_env_contract boundReconciler chanDisp (by decide)⟩

/-- C4: with an empty resolved secret name and an absent deployment, env-var
generation and deployment construction both fail with the configuration error
and return no object, the reconciliation marks the channel's `Dispatcher`
condition Failed, issues no create call (its only store call is the fetch),
and leaves the object store untouched. -/
theorem dispatcherDeployment_empty_secret_configuration_error
    (w : EngineWorld) (r : Reconciler) (channel : KafkaChannel)
    (hsec : r.getKafkaSecretName (topicName channel) = "")
    (hget : w.deploymentGetFault = none)
    (habsent : findDeploymentIn w.deployments knativeEventingNamespace (dispatcherDnsSafeName channel) = none) :
    dispatcherDeploymentEnvVars r channel
        = Except.error ("invalid kafkaSecret for topic " ++ topicName channel)
    ∧ newDispatcherDeployment r channel
        = Except.error ("invalid kafkaSecret for topic " ++ topicName channel)
    ∧ (reconcileDispatcherDeployment w r channel).err
        = some (RecError.config ("invalid kafkaSecret for topic " ++ topicName channel))
    ∧ (reconcileDispatcherDeployment w r channel).events
        = [EngineEvent.getDeployment knativeEventingNamespace (dispatcherDnsSafeName channel)]
    ∧ (reconcileDispatcherDeployment w r channel).world = w
    ∧ (reconcileDispatcherDeployment w r channel).channel.status.dispatcher
        = ⟨CondState.isFalse, dispatcherDeploymentReconciliationFailed,
            "Failed To Generate Dispatcher Deployment: "
              ++ ("invalid kafkaSecret for topic " ++ topicName channel)⟩ := by
  have henv : dispatcherDeploymentEnvVars r channel
      = Except.error ("invalid kafkaSecret for topic " ++ topicName channel) := by
    simp only [dispatcherDeploymentEnvVars, hsec]
    rfl
  have hnew : newDispatcherDeployment r channel
      = Except.error ("invalid kafkaSecret for topic " ++ topicName channel) := by
    simp only [newDispatcherDeployment, henv]
  have hgetd : w.getDeployment knativeEventingNamespace (dispatcherDnsSafeName channel)
      = Except.error StoreError.notFound := by
    simp only [EngineWorld.getDeployment, hget, habsent]
  refine ⟨henv, hnew, ?_, ?_, ?_, ?_⟩ <;>
    simp [reconcileDispatcherDeployment, hgetd, hnew, KafkaChannelStatus.markDispatcherFailed]

/-- Witness for C4: the unbound reconciler against an empty store. -/
theorem dispatcherDeployment_empty_secret_configuration_error_witness :
    unboundReconciler.getKafkaSecretName (topicName chanDisp) = ""
    ∧ emptyEngineWorld.deploymentGetFault = none
    ∧ findDeploymentIn emptyEngineWorld.deployments knativeEventingNamespace
        (dispatcherDnsSafeName chanDisp) = none
    ∧ (dispatcherDeploymentEnvVars unboundReconciler chanDisp
          = Except.error ("invalid kafkaSecret for topic " ++ topicName chanDisp)
      ∧ newDispatcherDeployment unboundReconciler chanDisp
          = Except.error ("invalid kafkaSecret for topic " ++ topicName chanDisp)
      ∧ (reconcileDispatcherDeployment emptyEngineWorld unboundReconciler chanDisp).err
          = some (RecError.config ("invalid kafkaSecret for topic " ++ topicName chanDisp))
      ∧ (reconcileDispatcherDeployment emptyEngineWorld unboundReconciler chanDisp).events
          = [EngineEvent.getDeployment knativeEventingNamespace (dispatcherDnsSafeName chanDisp)]
      ∧ (reconcileDispatcherDeployment emptyEngineWorld unboundReconciler chanDisp).world = emptyEngineWorld
      ∧ (reconcileDispatcherDeployment emptyEngineWorld unboundReconciler chanDisp).channel.status.dispatcher
          = ⟨CondState.isFalse, dispatcherDeploymentReconciliationFailed,
              "Failed To Generate Dispatcher Deployment: "
                ++ ("invalid kafkaSecret for topic " ++ topicName chanDisp)⟩) := by
  exact ⟨rfl, rfl, rfl,
    dispatcherDeployment_empty_secret_configuration_error emptyEngineWorld unboundReconciler chanDisp
      rfl rfl rfl⟩

/-- C5 counterexample: when the dispatcher SERVICE fetch fails with a
transient (non-not-found) error, the engine returns the error without a
create call, but — contrary to the claim — it does not mark any channel
condition Unknown: the channel comes back unchanged, with its conditions
still True. -/
theorem dispatcherService_get_error_marks_no_condition :
    (reconcileDispatcherService serviceFaultWorld boundReconciler chanSvcTrue).err
        = some (RecError.store StoreError.transient)
    ∧ (reconcileDispatcherService serviceFaultWorld boundReconciler chanSvcTrue).events
        = [EngineEvent.getService knativeEventingNamespace (dispatcherDnsSafeName chanSvcTrue)]
    ∧ (reconcileDispatcherService serviceFaultWorld boundReconciler chanSvcTrue).channel
        = chanSvcTrue
    ∧ chanSvcTrue.status.service.state ≠ CondState.unknown
    ∧ chanSvcTrue.status.dispatcher.state ≠ CondState.unknown := by
  refine ⟨rfl, rfl, rfl, by decide, by decide⟩

/-- C5 (amended): for the deployment, a non-not-found fetch error marks the
channel's `Dispatcher` condition Unknown and returns the error without a
create call; for the service, the error is likewise returned without a create
call but no channel condition is modified. -/
theorem subresource_get_error_handling
    (w : EngineWorld) (r : Reconciler) (channel : KafkaChannel) (e e2 : StoreError)
    (hs : w.serviceGetFault = some e) (hsne : e ≠ StoreError.notFound)
    (hd : w.deploymentGetFault = some e2) (hdne : e2 ≠ StoreError.notFound) :
    (reconcileDispatcherService w r channel).err = some (RecError.store e)
    ∧ (reconcileDispatcherService w r channel).events
        = [EngineEvent.getService knativeEventingNamespace (dispatcherDnsSafeName channel)]
    ∧ (reconcileDispatcherService w r channel).channel = channel
    ∧ (reconcileDispatcherService w r channel).world = w
    ∧ (reconcileDispatcherDeployment w r channel).err = some (RecError.store e2)
    ∧ (reconcileDispatcherDeployment w r channel).events
        = [EngineEvent.getDeployment knativeEventingNamespace (dispatcherDnsSafeName channel)]
    ∧ (reconcileDispatcherDeployment w r channel).channel.status
        = channel.status.markDispatcherUnknown dispatcherDeploymentReconciliationFailed
            "Failed To Get Dispatcher Deployment"
    ∧ (reconcileDispatcherDeployment w r channel).world = w := by
  have hgs : w.getService knativeEventingNamespace (dispatcherDnsSafeName channel)
      = Except.error e := by
    simp only [EngineWorld.getService, hs]
  have hgd : w.getDeployment knativeEventingNamespace (dispatcherDnsSafeName channel)
      = Except.error e2 := by
    simp only [EngineWorld.getDeployment, hd]
  cases e with
  | notFound => exact absurd rfl hsne
  | conflict =>
    cases e2 with
    | notFound => exact absurd rfl hdne
    | conflict => exact ⟨by simp [reconcileDispatcherService, hgs], by simp [reconcileDispatcherService, hgs],
        by simp [reconcileDispatcherService, hgs], by simp [reconcileDispatcherService, hgs],
        by simp [reconcileDispatcherDeployment, hgd], by simp [reconcileDispatcherDeployment, hgd],
        by simp [reconcileDispatcherDeployment, hgd], by simp [reconcileDispatcherDeployment, hgd]⟩
    | transient => exact ⟨by simp [reconcileDispatcherService, hgs], by simp [reconcileDispatcherService, hgs],
        by simp [reconcileDispatcherService, hgs], by simp [reconcileDispatcherService, hgs],
        by simp [reconcileDispatcherDeployment, hgd], by simp [reconcileDispatcherDeployment, hgd],
        by simp [reconcileDispatcherDeployment, hgd], by simp [reconcileDispatcherDeployment, hgd]⟩
  | transient =>
    cases e2 with
    | notFound => exact absurd rfl hdne
    | conflict => exact ⟨by simp [reconcileDispatcherService, hgs], by simp [reconcileDispatcherService, hgs],
        by simp [reconcileDispatcherService, hgs], by simp [reconcileDispatcherService, hgs],
        by simp [reconcileDispatcherDeployment, hgd], by simp [reconcileDispatcherDeployment, hgd],
        by simp [reconcileDispatcherDeployment, hgd], by simp [reconcileDispatcherDeployment, hgd]⟩
    | transient => exact ⟨by simp [reconcileDispatcherService, hgs], by simp [reconcileDispatcherService, hgs],
        by simp [reconcileDispatcherService, hgs], by simp [reconcileDispatcherService, hgs],
        by simp [reconcileDispatcherDeployment, hgd], by simp [reconcileDispatcherDeployment, hgd],
        by simp [reconcileDispatcherDeployment, hgd], by simp [reconcileDispatcherDeployment, hgd]⟩

/-- Witness for the amended C5 at a concrete world with both fetches failing. -/
theorem subresource_get_error_handling_witness :
    bothFaultWorld.serviceGetFault = some StoreError.transient
    ∧ StoreError.transient ≠ StoreError.notFound
    ∧ bothFaultWorld.deploymentGetFault = some StoreError.conflict
    ∧ StoreError.conflict ≠ StoreError.notFound
    ∧ ((reconcileDispatcherService bothFaultWorld boundReconciler chanDisp).err
          = some (RecError.store StoreError.transient)
      ∧ (reconcileDispatcherService bothFaultWorld boundReconciler chanDisp).events
          = [EngineEvent.getService knativeEventingNamespace (dispatcherDnsSafeName chanDisp)]
      ∧ (reconcileDispatcherService bothFaultWorld boundReconciler chanDisp).channel = chanDisp
      ∧ (reconcileDispatcherService bothFaultWorld boundReconciler chanDisp).world = bothFaultWorld
      ∧ (reconcileDispatcherDeployment bothFaultWorld boundReconciler chanDisp).err
          = some (RecError.store StoreError.conflict)
      ∧ (reconcileDispatcherDeployment bothFaultWorld boundReconciler chanDisp).events
          = [EngineEvent.getDeployment knativeEventingNamespace (dispatcherDnsSafeName chanDisp)]
      ∧ (reconcileDispatcherDeployment bothFaultWorld boundReconciler chanDisp).channel.status
          = chanDisp.status.markDispatcherUnknown dispatcherDeploymentReconciliationFailed
              "Failed To Get Dispatcher Deployment"
      ∧ (reconcileDispatcherDeployment bothFaultWorld boundReconciler chanDisp).world
          = bothFaultWorld) := by
  exact ⟨rfl, by decide, rfl, by decide,
    subresource_get_error_handling bothFaultWorld boundReconciler chanDisp
      StoreError.transient StoreError.conflict rfl (by decide) rfl (by decide)⟩

/-- C6 counterexample: the dispatcher service exists and its reconciliation
succeeds, but — contrary to the claim — the channel's `Service` condition is
not set True: the channel comes back unchanged with the condition still
False. -/
theorem dispatcherService_exists_does_not_mark_service_true :
    findServiceIn servicePresentWorld.services knativeEventingNamespace
        (dispatcherDnsSafeName chanSvcFalse) = some presentService
    ∧ (reconcileDispatcherService servicePresentWorld boundReconciler chanSvcFalse).err = none
    ∧ (reconcileDispatcherService servicePresentWorld boundReconciler chanSvcFalse).channel
        = chanSvcFalse
    ∧ chanSvcFalse.status.service.state ≠ CondState.isTrue := by
  refine ⟨by decide, rfl, rfl, by decide⟩

/-- C6 (amended): on a successful deployment fetch the engine propagates the
live deployment status into the channel's `Dispatcher` condition; on a
successful service fetch the reconciliation succeeds but the channel (and in
particular its `Service` condition) is left unmodified. -/
theorem subresource_fetch_success_propagation
    (w : EngineWorld) (r : Reconciler) (channel : KafkaChannel) (d : DeploymentObj) (s : ServiceObj)
    (hdg : w.deploymentGetFault = none)
    (hdf : findDeploymentIn w.deployments knativeEventingNamespace (dispatcherDnsSafeName channel) = some d)
    (hsg : w.serviceGetFault = none)
    (hsf : findServiceIn w.services knativeEventingNamespace (dispatcherDnsSafeName channel) = some s) :
    (reconcileDispatcherDeployment w r channel).err = none
    ∧ (reconcileDispatcherDeployment w r channel).channel.status
        = channel.status.propagateDispatcherStatus d.status
    ∧ (reconcileDispatcherDeployment w r channel).world = w
    ∧ (reconcileDispatcherDeployment w r channel).events
        = [EngineEvent.getDeployment knativeEventingNamespace (dispatcherDnsSafeName channel)]
    ∧ (reconcileDispatcherService w r channel).err = none
    ∧ (reconcileDispatcherService w r channel).channel = channel
    ∧ (reconcileDispatcherService w r channel).world = w
    ∧ (reconcileDispatcherService w r channel).events
        = [EngineEvent.getService knativeEventingNamespace (dispatcherDnsSafeName channel)] := by
  have hgd : w.getDeployment knativeEventingNamespace (dispatcherDnsSafeName channel)
      = Except.ok d := by
    simp only [EngineWorld.getDeployment, hdg, hdf]
  have hgs : w.getService knativeEventingNamespace (dispatcherDnsSafeName channel)
      = Except.ok s := by
    simp only [EngineWorld.getService, hsg, hsf]
  refine ⟨?_, ?_, ?_, ?_, ?_, ?_, ?_, ?_⟩ <;>
    simp [reconcileDispatcherDeployment, reconcileDispatcherService, hgd, hgs]

/-- Witness for the amended C6 with both sub-resources present. -/
theorem subresource_fetch_success_propagation_witness :
    bothPresentWorld.deploymentGetFault = none
    ∧ findDeploymentIn bothPresentWorld.deployments knativeEventingNamespace
        (dispatcherDnsSafeName chanDisp) = some presentDeployment
    ∧ bothPresentWorld.serviceGetFault = none
    ∧ findServiceIn bothPresentWorld.services knativeEventingNamespace
        (dispatcherDnsSafeName chanDisp) = some presentService
    ∧ ((reconcileDispatcherDeployment bothPresentWorld boundReconciler chanDisp).err = none
      ∧ (reconcileDispatcherDeployment bothPresentWorld boundReconciler chanDisp).channel.status
          = chanDisp.status.propagateDispatcherStatus presentDeployment.status
      ∧ (reconcileDispatcherDeployment bothPresentWorld boundReconciler chanDisp).world
          = bothPresentWorld
      ∧ (reconcileDispatcherDeployment bothPresentWorld boundReconciler chanDisp).events
          = [EngineEvent.getDeployment knativeEventingNamespace (dispatcherDnsSafeName chanDisp)]
      ∧ (reconcileDispatcherService bothPresentWorld boundReconciler chanDisp).err = none
      ∧ (reconcileDispatcherService bothPresentWorld boundReconciler chanDisp).channel = chanDisp
      ∧ (reconcileDispatcherService bothPresentWorld boundReconciler chanDisp).world
          = bothPresentWorld
      ∧ (reconcileDispatcherService bothPresentWorld boundReconciler chanDisp).events
          = [EngineEvent.getService knativeEventingNamespace (dispatcherDnsSafeName chanDisp)]) := by
  exact ⟨rfl, by decide, rfl, by decide,
    subresource_fetch_success_propagation bothPresentWorld boundReconciler chanDisp
      presentDeployment presentService rfl (by decide) rfl (by decide)⟩

theorem reconcileDispatcherService_channel_unchanged
    (w : EngineWorld) (r : Reconciler) (channel : KafkaChannel) :
    (reconcileDispatcherService w r channel).channel = channel := by
  cases hg : w.getService knativeEventingNamespace (dispatcherDnsSafeName channel) with
  | error e =>
    cases e with
    | notFound =>
      cases hc : w.createService (newDispatcherService r channel) with
      | error e2 => simp [reconcileDispatcherService, hg, hc]
      | ok w2 => simp [reconcileDispatcherService, hg, hc]
    | conflict => simp [reconcileDispatcherService, hg]
    | transient => simp [reconcileDispatcherService, hg]
  | ok s => simp [reconcileDispatcherService, hg]

theorem createService_preserves_deployment_state
    (w : EngineWorld) (s : ServiceObj) (w2 : EngineWorld)
    (h : w.createService s = Except.ok w2) :
    w2.deployments = w.deployments
    ∧ w2.deploymentGetFault = w.deploymentGetFault
    ∧ w2.deploymentCreateFault = w.deploymentCreateFault := by
  cases hf : w.serviceCreateFault with
  | some e => simp [EngineWorld.createService, hf] at h
  | none =>
    simp only [EngineWorld.createService, hf, Except.ok.injEq] at h
    subst h
    exact ⟨rfl, rfl, rfl⟩

theorem reconcileDispatcherService_preserves_deployment_state
    (w : EngineWorld) (r : Reconciler) (channel : KafkaChannel) :
    (reconcileDispatcherService w r channel).world.deployments = w.deployments
    ∧ (reconcileDispatcherService w r channel).world.deploymentGetFault = w.deploymentGetFault
    ∧ (reconcileDispatcherService w r channel).world.deploymentCreateFault = w.deploymentCreateFault := by
  cases hg : w.getService knativeEventingNamespace (dispatcherDnsSafeName channel) with
  | error e =>
    cases e with
    | notFound =>
      cases hc : w.createService (newDispatcherService r channel) with
      | error e2 => simp [reconcileDispatcherService, hg, hc]
      | ok w2 =>
        have hp := createService_preserves_deployment_state w (newDispatcherService r channel) w2 hc
        simp [reconcileDispatcherService, hg, hc, hp.1, hp.2.1, hp.2.2]
    | conflict => simp [reconcileDispatcherService, hg]
    | transient => simp [reconcileDispatcherService, hg]
  | ok s => simp [reconcileDispatcherService, hg]

theorem reconcileDispatcherService_events_cases
    (w : EngineWorld) (r : Reconciler) (channel : KafkaChannel) :
    (reconcileDispatcherService w r channel).events
        = [EngineEvent.getService knativeEventingNamespace (dispatcherDnsSafeName channel)]
    ∨ (reconcileDispatcherService w r channel).events
        = [EngineEvent.getService knativeEventingNamespace (dispatcherDnsSafeName channel),
           EngineEvent.createService (newDispatcherService r channel)] := by
  cases hg : w.getService knativeEventingNamespace (dispatcherDnsSafeName channel) with
  | error e =>
    cases e with
    | notFound =>
      cases hc : w.createService (newDispatcherService r channel) with
      | error e2 => exact Or.inr (by simp [reconcileDispatcherService, hg, hc])
      | ok w2 => exact Or.inr (by simp [reconcileDispatcherService, hg, hc])
    | conflict => exact Or.inl (by simp [reconcileDispatcherService, hg])
    | transient => exact Or.inl (by simp [reconcileDispatcherService, hg])
  | ok s => exact Or.inl (by simp [reconcileDispatcherService, hg])

theorem reconcileDispatcherDeployment_events_cases
    (w : EngineWorld) (r : Reconciler) (channel : KafkaChannel) :
    (reconcileDispatcherDeployment w r channel).events
        = [EngineEvent.getDeployment knativeEventingNamespace (dispatcherDnsSafeName channel)]
    ∨ (∃ d, newDispatcherDeployment r channel = Except.ok d
        ∧ (reconcileDispatcherDeployment w r channel).events
            = [EngineEvent.getDeployment knativeEventingNamespace (dispatcherDnsSafeName channel),
               EngineEvent.createDeployment d]) := by
  cases hg : w.getDeployment knativeEventingNamespace (dispatcherDnsSafeName channel) with
  | error e =>
    cases e with
    | notFound =>
      cases hn : newDispatcherDeployment r channel with
      | error msg => exact Or.inl (by simp [reconcileDispatcherDeployment, hg, hn])
      | ok d =>
        cases hc : w.createDeployment d with
        | error e2 =>
          exact Or.inr ⟨d, rfl, by simp [reconcileDispatcherDeployment, hg, hn, hc]⟩
        | ok w2 =>
          exact Or.inr ⟨d, rfl, by simp [reconcileDispatcherDeployment, hg, hn, hc]⟩
    | conflict => exact Or.inl (by simp [reconcileDispatcherDeployment, hg])
    | transient => exact Or.inl (by simp [reconcileDispatcherDeployment, hg])
  | ok d => exact Or.inl (by simp [reconcileDispatcherDeployment, hg])

theorem newDispatcherService_ns (r : Reconciler) (channel : KafkaChannel) :
    (newDispatcherService r channel).ns = knativeEventingNamespace := rfl

theorem newDispatcherDeployment_ns (r : Reconciler) (channel : KafkaChannel) (d : DeploymentObj)
    (h : newDispatcherDeployment r channel = Except.ok d) :
    d.ns = knativeEventingNamespace := by
  cases he : dispatcherDeploymentEnvVars r channel with
  | error msg => simp [newDispatcherDeployment, he] at h
  | ok envVars =>
    simp only [newDispatcherDeployment, he, Except.ok.injEq] at h
    subst h
    rfl

theorem reconcileDispatcher_event_mem
    (w : EngineWorld) (r : Reconciler) (channel : KafkaChannel) (e : EngineEvent)
    (h : e ∈ (reconcileDispatcher w r channel).events) :
    e = EngineEvent.getService knativeEventingNamespace (dispatcherDnsSafeName channel)
    ∨ e = EngineEvent.createService (newDispatcherService r channel)
    ∨ e = EngineEvent.getDeployment knativeEventingNamespace (dispatcherDnsSafeName channel)
    ∨ (∃ d, newDispatcherDeployment r channel = Except.ok d ∧ e = EngineEvent.createDeployment d)
    ∨ e = EngineEvent.warningEvent dispatcherServiceReconciliationFailed
    ∨ e = EngineEvent.warningEvent dispatcherDeploymentReconciliationFailed := by
  have hchan := reconcileDispatcherService_channel_unchanged w r channel
  simp only [reconcileDispatcher, hchan] at h
  rw [List.mem_append] at h
  rcases h with h | h
  · have h2 : e ∈ (reconcileDispatcherService w r channel).events
        ∨ e = EngineEvent.warningEvent dispatcherServiceReconciliationFailed := by
      cases hse : (reconcileDispatcherService w r channel).err with
      | some err => simp only [hse] at h; rw [List.mem_append] at h; simpa using h
      | none => simp only [hse] at h; exact Or.inl h
    rcases h2 with h2 | h2
    · rcases reconcileDispatcherService_events_cases w r channel with hev | hev <;>
        · rw [hev] at h2
          simp at h2
          tauto
    · tauto
  · have h2 : e ∈ (reconcileDispatcherDeployment (reconcileDispatcherService w r channel).world r channel).events
        ∨ e = EngineEvent.warningEvent dispatcherDeploymentReconciliationFailed := by
      cases hde : (reconcileDispatcherDeployment (reconcileDispatcherService w r channel).world r channel).err with
      | some err => simp only [hde] at h; rw [List.mem_append] at h; simpa using h
      | none => simp only [hde] at h; exact Or.inl h
    rcases h2 with h2 | h2
    · rcases reconcileDispatcherDeployment_events_cases
          (reconcileDispatcherService w r channel).world r channel with hev | ⟨d, hd, hev⟩
      · rw [hev] at h2
        simp at h2
        tauto
      · rw [hev] at h2
        simp at h2
        rcases h2 with h2 | h2
        · tauto
        · exact Or.inr (Or.inr (Or.inr (Or.inl ⟨d, hd, h2⟩)))
    · tauto

/-- C7: both sub-resources are attempted on every run — the service fetch and
the deployment fetch both appear in the trace, the service outcome does not
perturb the channel or the deployment-relevant world state handed to the
deployment reconciliation — and the single aggregate error is returned exactly
when at least one of the two sub-reconciliations failed. -/
theorem reconcileDispatcher_both_attempted_aggregate_error
    (w : EngineWorld) (r : Reconciler) (channel : KafkaChannel) :
    EngineEvent.getService knativeEventingNamespace (dispatcherDnsSafeName channel)
        ∈ (reconcileDispatcher w r channel).events
    ∧ EngineEvent.getDeployment knativeEventingNamespace (dispatcherDnsSafeName channel)
        ∈ (reconcileDispatcher w r channel).events
    ∧ ((reconcileDispatcher w r channel).err = some "failed to reconcile dispatcher resources"
        ↔ ((reconcileDispatcherService w r channel).err.isSome = true
          ∨ (reconcileDispatcherDeployment (reconcileDispatcherService w r channel).world r channel).err.isSome = true))
    ∧ ((reconcileDispatcher w r channel).err = none
        ↔ ((reconcileDispatcherService w r channel).err = none
          ∧ (reconcileDispatcherDeployment (reconcileDispatcherService w r channel).world r channel).err = none))
    ∧ (reconcileDispatcherService w r channel).channel = channel
    ∧ (reconcileDispatcherService w r channel).world.deployments = w.deployments
    ∧ (reconcileDispatcherService w r channel).world.deploymentGetFault = w.deploymentGetFault
    ∧ (reconcileDispatcherService w r channel).world.deploymentCreateFault = w.deploymentCreateFault := by
  have hchan := reconcileDispatcherService_channel_unchanged w r channel
  have hpres := reconcileDispatcherService_preserves_deployment_state w r channel
  refine ⟨?_, ?_, ?_, ?_, hchan, hpres.1, hpres.2.1, hpres.2.2⟩
  · simp only [reconcileDispatcher, hchan]
    rw [List.mem_append]
    left
    have hhead : ∃ tail, (reconcileDispatcherService w r channel).events
        = EngineEvent.getService knativeEventingNamespace (dispatcherDnsSafeName channel) :: tail := by
      rcases reconcileDispatcherService_events_cases w r channel with hev | hev
      · exact ⟨_, hev⟩
      · exact ⟨_, hev⟩
    rcases hhead with ⟨tail, hev⟩
    cases hse : (reconcileDispatcherService w r channel).err <;> simp [hse, hev]
  · simp only [reconcileDispatcher, hchan]
    rw [List.mem_append]
    right
    have hhead : ∃ tail,
        (reconcileDispatcherDeployment (reconcileDispatcherService w r channel).world r channel).events
          = EngineEvent.getDeployment knativeEventingNamespace (dispatcherDnsSafeName channel) :: tail := by
      rcases reconcileDispatcherDeployment_events_cases
          (reconcileDispatcherService w r channel).world r channel with hev | ⟨d, _, hev⟩
      · exact ⟨_, hev⟩
      · exact ⟨_, hev⟩
    rcases hhead with ⟨tail, hev⟩
    cases hde : (reconcileDispatcherDeployment (reconcileDispatcherService w r channel).world r channel).err <;>
      simp [hde, hev]
  · simp only [reconcileDispatcher, hchan]
    cases hse : (reconcileDispatcherService w r channel).err <;>
      cases hde : (reconcileDispatcherDeployment (reconcileDispatcherService w r channel).world r channel).err <;>
        simp [hse, hde]
  · simp only [reconcileDispatcher, hchan]
    cases hse : (reconcileDispatcherService w r channel).err <;>
      cases hde : (reconcileDispatcherDeployment (reconcileDispatcherService w r channel).world r channel).err <;>
        simp [hse, hde]

/-- C10: lookups and creations of both dispatcher sub-resources always target
the single fixed Knative eventing namespace — the builders bake it into the
constructed objects, and every get or create call in a reconciliation trace
names it, whatever the channel's own namespace is. -/
theorem dispatcher_subresources_fixed_namespace
    (w : EngineWorld) (r : Reconciler) (channel : KafkaChannel) :
    (newDispatcherService r channel).ns = knativeEventingNamespace
    ∧ (∀ d, newDispatcherDeployment r channel = Except.ok d → d.ns = knativeEventingNamespace)
    ∧ (∀ ns name, EngineEvent.getService ns name ∈ (reconcileDispatcher w r channel).events
        → ns = knativeEventingNamespace)
    ∧ (∀ s, EngineEvent.createService s ∈ (reconcileDispatcher w r channel).events
        → s.ns = knativeEventingNamespace)
    ∧ (∀ ns name, EngineEvent.getDeployment ns name ∈ (reconcileDispatcher w r channel).events
        → ns = knativeEventingNamespace)
    ∧ (∀ d, EngineEvent.createDeployment d ∈ (reconcileDispatcher w r channel).events
        → d.ns = knativeEventingNamespace) := by
  refine ⟨rfl, fun d hd => newDispatcherDeployment_ns r channel d hd, ?_, ?_, ?_, ?_⟩
  · intro ns name hm
    rcases reconcileDispatcher_event_mem w r channel _ hm with h | h | h | ⟨d, _, h⟩ | h | h <;>
      first
      | (cases h; rfl)
      | cases h
  · intro s hm
    rcases reconcileDispatcher_event_mem w r channel _ hm with h | h | h | ⟨d, _, h⟩ | h | h <;>
      first
      | (cases h; rfl)
      | cases h
  · intro ns name hm
    rcases reconcileDispatcher_event_mem w r channel _ hm with h | h | h | ⟨d, _, h⟩ | h | h <;>
      first
      | (cases h; rfl)
      | cases h
  · intro d hm
    rcases reconcileDispatcher_event_mem w r channel _ hm with h | h | h | ⟨d2, hd2, h⟩ | h | h
    · cases h
    · cases h
    · cases h
    · cases h
      exact newDispatcherDeployment_ns r channel _ hd2
    · cases h
    · cases h

/-- Witness for C10 at a concrete world, reconciler and channel. -/
theorem dispatcher_subresources_fixed_namespace_witness :
    (newDispatcherService boundReconciler chanDisp).ns = knativeEventingNamespace
    ∧ (∀ d, newDispatcherDeployment boundReconciler chanDisp = Except.ok d
        → d.ns = knativeEventingNamespace)
    ∧ (∀ ns name, EngineEvent.getService ns name
          ∈ (reconcileDispatcher emptyEngineWorld boundReconciler chanDisp).events
        → ns = knativeEventingNamespace)
    ∧ (∀ s, EngineEvent.createService s
          ∈ (reconcileDispatcher emptyEngineWorld boundReconciler chanDisp).events
        → s.ns = knativeEventingNamespace)
    ∧ (∀ ns name, EngineEvent.getDeployment ns name
          ∈ (reconcileDispatcher emptyEngineWorld boundReconciler chanDisp).events
        → ns = knativeEventingNamespace)
    ∧ (∀ d, EngineEvent.createDeployment d
          ∈ (reconcileDispatcher emptyEngineWorld boundReconciler chanDisp).events
        → d.ns = knativeEventingNamespace) :=
  dispatcher_subresources_fixed_namespace emptyEngineWorld boundReconciler chanDisp

/-! ### Aggregator infrastructure lemmas -/

theorem computeKafkaChannelStatus_idem (st : KafkaChannelStatus)
    (sv : Bool) (sr sm : String) (dv : Bool) (dr dm : String) :
    computeKafkaChannelStatus (computeKafkaChannelStatus st sv sr sm dv dr dm) sv sr sm dv dr dm
      = computeKafkaChannelStatus st sv sr sm dv dr dm := by
  cases sv <;> cases dv <;>
    simp [computeKafkaChannelStatus, KafkaChannelStatus.markServiceTrue,
      KafkaChannelStatus.markServiceFailed, KafkaChannelStatus.markEndpointsTrue,
      KafkaChannelStatus.markEndpointsFailed]

theorem findChannelIn_key (l : List KafkaChannel) (ns name : String) (c0 : KafkaChannel)
    (h : findChannelIn l ns name = some c0) : c0.ns = ns ∧ c0.name = name := by
  induction l with
  | nil => simp [findChannelIn] at h
  | cons s rest ih =>
    by_cases hk : s.ns = ns ∧ s.name = name
    · simp only [findChannelIn, if_pos hk] at h
      cases h
      exact hk
    · simp only [findChannelIn, if_neg hk] at h
      exact ih h

theorem findChannelIn_replace (l : List KafkaChannel) (c c0 : KafkaChannel)
    (hfind : findChannelIn l c.ns c.name = some c0) :
    findChannelIn (replaceChannelIn l c) c.ns c.name = some c := by
  induction l with
  | nil => simp [findChannelIn] at hfind
  | cons s rest ih =>
    by_cases hk : s.ns = c.ns ∧ s.name = c.name
    · simp [findChannelIn, replaceChannelIn, if_pos hk]
    · simp only [findChannelIn, if_neg hk] at hfind
      simp only [replaceChannelIn, List.map_cons, if_neg hk]
      simp only [findChannelIn, if_neg hk]
      exact ih hfind

theorem findChannelIn_replace_other (l : List KafkaChannel) (c : KafkaChannel) (ns name : String)
    (hne : ¬(c.ns = ns ∧ c.name = name)) :
    findChannelIn (replaceChannelIn l c) ns name = findChannelIn l ns name := by
  induction l with
  | nil => simp [replaceChannelIn, findChannelIn]
  | cons s rest ih =>
    by_cases hk : s.ns = c.ns ∧ s.name = c.name
    · have hs : ¬(s.ns = ns ∧ s.name = name) := by
        intro hcontra
        exact hne ⟨hk.1 ▸ hcontra.1, hk.2 ▸ hcontra.2⟩
      simp only [replaceChannelIn, List.map_cons, if_pos hk]
      simp only [findChannelIn, if_neg hne, if_neg hs]
      exact ih
    · simp only [replaceChannelIn, List.map_cons, if_neg hk]
      by_cases hs : s.ns = ns ∧ s.name = name
      · simp only [findChannelIn, if_pos hs]
      · simp only [findChannelIn, if_neg hs]
        exact ih

theorem updateStatusCall_conflict (w : ChannelWorld) (c c0 : KafkaChannel)
    (hfault : w.updateFaults.lookup (c.ns, c.name) = none)
    (hfind : findChannelIn w.channels c.ns c.name = some c0)
    (hrv : ¬ c0.resourceVersion = c.resourceVersion) :
    w.updateStatusCall c = Except.error StoreError.conflict := by
  simp [ChannelWorld.updateStatusCall, hfault, hfind, hrv]

theorem updateStatusCall_commit (w : ChannelWorld) (c c0 : KafkaChannel)
    (hfault : w.updateFaults.lookup (c.ns, c.name) = none)
    (hfind : findChannelIn w.channels c.ns c.name = some c0)
    (hrv : c0.resourceVersion = c.resourceVersion) :
    w.updateStatusCall c = Except.ok
      { w with channels := replaceChannelIn w.channels { c with resourceVersion := c.resourceVersion + 1 } } := by
  simp [ChannelWorld.updateStatusCall, hfault, hfind, hrv]

theorem updateStatusCall_ok_find (w : ChannelWorld) (c : KafkaChannel) (w2 : ChannelWorld)
    (h : w.updateStatusCall c = Except.ok w2) :
    w2.findChannel c.ns c.name = some { c with resourceVersion := c.resourceVersion + 1 }
    ∧ w2.updateFaults = w.updateFaults := by
  cases hfault : w.updateFaults.lookup (c.ns, c.name) with
  | some e => simp [ChannelWorld.updateStatusCall, hfault] at h
  | none =>
    cases hfind : findChannelIn w.channels c.ns c.name with
    | none => simp [ChannelWorld.updateStatusCall, hfault, hfind] at h
    | some stored =>
      by_cases hrv : stored.resourceVersion = c.resourceVersion
      · rw [updateStatusCall_commit w c stored hfault hfind hrv] at h
        cases h
        exact ⟨findChannelIn_replace w.channels _ stored hfind, rfl⟩
      · rw [updateStatusCall_conflict w c stored hfault hfind hrv] at h
        cases h

theorem updateStatusCall_ok_other (w : ChannelWorld) (c : KafkaChannel) (w2 : ChannelWorld)
    (ns name : String)
    (h : w.updateStatusCall c = Except.ok w2)
    (hne : ¬(c.ns = ns ∧ c.name = name)) :
    w2.findChannel ns name = w.findChannel ns name := by
  cases hfault : w.updateFaults.lookup (c.ns, c.name) with
  | some e => simp [ChannelWorld.updateStatusCall, hfault] at h
  | none =>
    cases hfind : findChannelIn w.channels c.ns c.name with
    | none => simp [ChannelWorld.updateStatusCall, hfault, hfind] at h
    | some stored =>
      by_cases hrv : stored.resourceVersion = c.resourceVersion
      · rw [updateStatusCall_commit w c stored hfault hfind hrv] at h
        cases h
        exact findChannelIn_replace_other w.channels _ ns name hne
      · rw [updateStatusCall_conflict w c stored hfault hfind hrv] at h
        cases h

theorem applyStatusUpdate_skip (w : ChannelWorld) (copy : KafkaChannel)
    (sv : Bool) (sr sm : String) (dv : Bool) (dr dm : String)
    (h : computeKafkaChannelStatus copy.status sv sr sm dv dr dm = copy.status) :
    applyStatusUpdate w copy sv sr sm dv dr dm = ⟨w, [], Except.ok ()⟩ := by
  simp [applyStatusUpdate, h]

theorem applyStatusUpdate_write_ok (w : ChannelWorld) (copy : KafkaChannel)
    (sv : Bool) (sr sm : String) (dv : Bool) (dr dm : String) (w2 : ChannelWorld)
    (h : ¬ computeKafkaChannelStatus copy.status sv sr sm dv dr dm = copy.status)
    (hc : w.updateStatusCall { copy with status := computeKafkaChannelStatus copy.status sv sr sm dv dr dm }
        = Except.ok w2) :
    applyStatusUpdate w copy sv sr sm dv dr dm
      = ⟨w2,
          [ChannelApiEvent.updateStatus { copy with status := computeKafkaChannelStatus copy.status sv sr sm dv dr dm }],
          Except.ok ()⟩ := by
  simp [applyStatusUpdate, h, hc]

theorem applyStatusUpdate_write_err (w : ChannelWorld) (copy : KafkaChannel)
    (sv : Bool) (sr sm : String) (dv : Bool) (dr dm : String) (e : StoreError)
    (h : ¬ computeKafkaChannelStatus copy.status sv sr sm dv dr dm = copy.status)
    (hc : w.updateStatusCall { copy with status := computeKafkaChannelStatus copy.status sv sr sm dv dr dm }
        = Except.error e) :
    applyStatusUpdate w copy sv sr sm dv dr dm
      = ⟨w,
          [ChannelApiEvent.updateStatus { copy with status := computeKafkaChannelStatus copy.status sv sr sm dv dr dm }],
          Except.error e⟩ := by
  simp [applyStatusUpdate, h, hc]

theorem retryUpdateStatus_succ (sv : Bool) (sr sm : String) (dv : Bool) (dr dm : String)
    (fuel attempts : Nat) (w : ChannelWorld) (orig : KafkaChannel) :
    retryUpdateStatus sv sr sm dv dr dm (fuel + 1) attempts w orig =
      (match (updateStatusOnce w attempts orig sv sr sm dv dr dm).1.result with
       | Except.error StoreError.conflict =>
         let rest := retryUpdateStatus sv sr sm dv dr dm fuel (attempts + 1)
           (updateStatusOnce w attempts orig sv sr sm dv dr dm).1.world
           (updateStatusOnce w attempts orig sv sr sm dv dr dm).2
         ⟨rest.world, (updateStatusOnce w attempts orig sv sr sm dv dr dm).1.events ++ rest.events, rest.result⟩
       | r => ⟨(updateStatusOnce w attempts orig sv sr sm dv dr dm).1.world,
               (updateStatusOnce w attempts orig sv sr sm dv dr dm).1.events, r⟩) := by
  rfl

theorem countUpdateCalls_append (a b : List ChannelApiEvent) :
    countUpdateCalls (a ++ b) = countUpdateCalls a + countUpdateCalls b := by
  simp [countUpdateCalls, List.filter_append]

theorem countUpdateCalls_le_one_applyStatusUpdate (w : ChannelWorld) (copy : KafkaChannel)
    (sv : Bool) (sr sm : String) (dv : Bool) (dr dm : String) :
    countUpdateCalls (applyStatusUpdate w copy sv sr sm dv dr dm).events ≤ 1 := by
  by_cases h : computeKafkaChannelStatus copy.status sv sr sm dv dr dm = copy.status
  · rw [applyStatusUpdate_skip w copy sv sr sm dv dr dm h]
    simp [countUpdateCalls]
  · cases hc : w.updateStatusCall { copy with status := computeKafkaChannelStatus copy.status sv sr sm dv dr dm } with
    | ok w2 =>
      rw [applyStatusUpdate_write_ok w copy sv sr sm dv dr dm w2 h hc]
      simp [countUpdateCalls, ChannelApiEvent.isUpdate]
    | error e =>
      rw [applyStatusUpdate_write_err w copy sv sr sm dv dr dm e h hc]
      simp [countUpdateCalls, ChannelApiEvent.isUpdate]

theorem countUpdateCalls_le_one_updateStatusOnce (w : ChannelWorld) (attempts : Nat)
    (orig : KafkaChannel) (sv : Bool) (sr sm : String) (dv : Bool) (dr dm : String) :
    countUpdateCalls (updateStatusOnce w attempts orig sv sr sm dv dr dm).1.events ≤ 1 := by
  cases attempts with
  | zero =>
    simpa [updateStatusOnce] using countUpdateCalls_le_one_applyStatusUpdate w orig sv sr sm dv dr dm
  | succ n =>
    cases hf : w.findChannel orig.ns orig.name with
    | none => simp [updateStatusOnce, hf, countUpdateCalls, ChannelApiEvent.isUpdate]
    | some fresh =>
      have h1 := countUpdateCalls_le_one_applyStatusUpdate w fresh sv sr sm dv dr dm
      simp only [updateStatusOnce, hf, Nat.succ_sub_one, gt_iff_lt, Nat.zero_lt_succ, if_true]
      simpa [countUpdateCalls, ChannelApiEvent.isUpdate] using h1

theorem retryUpdateStatus_update_bound (sv : Bool) (sr sm : String) (dv : Bool) (dr dm : String) :
    ∀ (fuel attempts : Nat) (w : ChannelWorld) (orig : KafkaChannel),
      countUpdateCalls (retryUpdateStatus sv sr sm dv dr dm fuel attempts w orig).events ≤ fuel := by
  intro fuel
  induction fuel with
  | zero =>
    intro a w o
    simp [retryUpdateStatus, countUpdateCalls]
  | succ n ih =>
    intro a w o
    rw [retryUpdateStatus_succ]
    have h1 := countUpdateCalls_le_one_updateStatusOnce w a o sv sr sm dv dr dm
    cases hres : (updateStatusOnce w a o sv sr sm dv dr dm).1.result with
    | ok u =>
      dsimp only
      omega
    | error e =>
      cases e with
      | conflict =>
        dsimp only
        rw [countUpdateCalls_append]
        have h2 := ih (a + 1) (updateStatusOnce w a o sv sr sm dv dr dm).1.world
          (updateStatusOnce w a o sv sr sm dv dr dm).2
        omega
      | notFound =>
        dsimp only
        omega
      | transient =>
        dsimp only
        omega

theorem retryUpdateStatus_skip (sv : Bool) (sr sm : String) (dv : Bool) (dr dm : String)
    (fuel : Nat) (w : ChannelWorld) (orig : KafkaChannel)
    (h : computeKafkaChannelStatus orig.status sv sr sm dv dr dm = orig.status) :
    retryUpdateStatus sv sr sm dv dr dm (fuel + 1) 0 w orig = ⟨w, [], Except.ok ()⟩ := by
  rw [retryUpdateStatus_succ]
  have honce : updateStatusOnce w 0 orig sv sr sm dv dr dm = (⟨w, [], Except.ok ()⟩, orig) := by
    simp [updateStatusOnce, applyStatusUpdate_skip w orig sv sr sm dv dr dm h]
  rw [honce]

/-- C2: write avoidance.  When the status recomputed from the given copy is
structurally equal to that copy's status — which for an aggregator-listed
channel is the stored status — the whole update call issues no store call at
all (empty trace, world unchanged, success).  Moreover every `UpdateStatus`
call any attempt ever issues submits a status that was recomputed from the
copy in play and differs from that copy's status. -/
theorem updateKafkaChannelStatus_write_avoidance
    (w : ChannelWorld) (orig : KafkaChannel)
    (sv : Bool) (sr sm : String) (dv : Bool) (dr dm : String)
    (h : computeKafkaChannelStatus orig.status sv sr sm dv dr dm = orig.status) :
    updateKafkaChannelStatus w orig sv sr sm dv dr dm = ⟨w, [], Except.ok ()⟩
    ∧ ∀ (w2 : ChannelWorld) (copy ch : KafkaChannel),
        ChannelApiEvent.updateStatus ch ∈ (applyStatusUpdate w2 copy sv sr sm dv dr dm).events →
          ch.status = computeKafkaChannelStatus copy.status sv sr sm dv dr dm
          ∧ ¬ ch.status = copy.status := by
  constructor
  · exact retryUpdateStatus_skip sv sr sm dv dr dm 4 w orig h
  · intro w2 copy ch hm
    by_cases hc : computeKafkaChannelStatus copy.status sv sr sm dv dr dm = copy.status
    · rw [applyStatusUpdate_skip w2 copy sv sr sm dv dr dm hc] at hm
      simp at hm
    · cases hcall : w2.updateStatusCall { copy with status := computeKafkaChannelStatus copy.status sv sr sm dv dr dm } with
      | ok w3 =>
        rw [applyStatusUpdate_write_ok w2 copy sv sr sm dv dr dm w3 hc hcall] at hm
        simp only [List.mem_singleton, ChannelApiEvent.updateStatus.injEq] at hm
        subst hm
        exact ⟨rfl, hc⟩
      | error e =>
        rw [applyStatusUpdate_write_err w2 copy sv sr sm dv dr dm e hc hcall] at hm
        simp only [List.mem_singleton, ChannelApiEvent.updateStatus.injEq] at hm
        subst hm
        exact ⟨rfl, hc⟩

/-- Witness for C2 at a channel whose stored status already reflects the
specified state. -/
theorem updateKafkaChannelStatus_write_avoidance_witness :
    computeKafkaChannelStatus chanSettled.status true "" "" true "" "" = chanSettled.status
    ∧ (updateKafkaChannelStatus worldSettled chanSettled true "" "" true "" ""
          = ⟨worldSettled, [], Except.ok ()⟩
      ∧ ∀ (w2 : ChannelWorld) (copy ch : KafkaChannel),
          ChannelApiEvent.updateStatus ch ∈ (applyStatusUpdate w2 copy true "" "" true "" "").events →
            ch.status = computeKafkaChannelStatus copy.status true "" "" true "" ""
            ∧ ¬ ch.status = copy.status) := by
  exact ⟨by decide,
    updateKafkaChannelStatus_write_avoidance worldSettled chanSettled true "" "" true "" "" (by decide)⟩

/-- C3: conflict handling.  A stale copy whose first update conflicts (its
resource version differs from the stored one) leads to exactly: the conflicted
update of the stale recomputation, a reload of the channel from the store, and
a resubmission recomputed from the fresh copy carrying the fresh resource
version — never the stale object again — after which the store holds the
fresh recomputed status; and every update call, on any input, is bounded by
the fixed maximum attempt count. -/
theorem updateKafkaChannelStatus_conflict_reload_retry
    (w : ChannelWorld) (orig c0 : KafkaChannel)
    (sv : Bool) (sr sm : String) (dv : Bool) (dr dm : String)
    (hfind : w.findChannel orig.ns orig.name = some c0)
    (hfault : w.updateFaults.lookup (orig.ns, orig.name) = none)
    (hrv : ¬ orig.resourceVersion = c0.resourceVersion)
    (hch : ¬ computeKafkaChannelStatus orig.status sv sr sm dv dr dm = orig.status)
    (hch2 : ¬ computeKafkaChannelStatus c0.status sv sr sm dv dr dm = c0.status) :
    (updateKafkaChannelStatus w orig sv sr sm dv dr dm).events
      = [ChannelApiEvent.updateStatus
           { orig with status := computeKafkaChannelStatus orig.status sv sr sm dv dr dm },
         ChannelApiEvent.getChannel orig.ns orig.name,
         ChannelApiEvent.updateStatus
           { c0 with status := computeKafkaChannelStatus c0.status sv sr sm dv dr dm }]
    ∧ (updateKafkaChannelStatus w orig sv sr sm dv dr dm).result = Except.ok ()
    ∧ (updateKafkaChannelStatus w orig sv sr sm dv dr dm).world.findChannel orig.ns orig.name
        = some { c0 with status := computeKafkaChannelStatus c0.status sv sr sm dv dr dm,
                          resourceVersion := c0.resourceVersion + 1 }
    ∧ (∀ (w2 : ChannelWorld) (o2 : KafkaChannel),
        countUpdateCalls (updateKafkaChannelStatus w2 o2 sv sr sm dv dr dm).events ≤ retrySteps) := by
  have hkey := findChannelIn_key w.channels orig.ns orig.name c0 hfind
  have hcall1 : w.updateStatusCall
      { orig with status := computeKafkaChannelStatus orig.status sv sr sm dv dr dm }
      = Except.error StoreError.conflict := by
    exact updateStatusCall_conflict w _ c0 hfault hfind (fun hh => hrv hh.symm)
  have happly1 : applyStatusUpdate w orig sv sr sm dv dr dm
      = ⟨w,
          [ChannelApiEvent.updateStatus
            { orig with status := computeKafkaChannelStatus orig.status sv sr sm dv dr dm }],
          Except.error StoreError.conflict⟩ :=
    applyStatusUpdate_write_err w orig sv sr sm dv dr dm StoreError.conflict hch hcall1
  have honce0 : updateStatusOnce w 0 orig sv sr sm dv dr dm
      = (⟨w,
          [ChannelApiEvent.updateStatus
            { orig with status := computeKafkaChannelStatus orig.status sv sr sm dv dr dm }],
          Except.error StoreError.conflict⟩, orig) := by
    simp [updateStatusOnce, happly1]
  have hfind2 : findChannelIn w.channels c0.ns c0.name = some c0 := by
    rw [hkey.1, hkey.2]
    exact hfind
  have hfault2 : w.updateFaults.lookup (c0.ns, c0.name) = none := by
    rw [hkey.1, hkey.2]
    exact hfault
  have hcall2 : w.updateStatusCall
      { c0 with status := computeKafkaChannelStatus c0.status sv sr sm dv dr dm }
      = Except.ok { w with channels := (replaceChannelIn w.channels
          { c0 with status := computeKafkaChannelStatus c0.status sv sr sm dv dr dm,
                    resourceVersion := c0.resourceVersion + 1 }) } := by
    exact updateStatusCall_commit w _ c0 hfault2 hfind2 rfl
  have happly2 : applyStatusUpdate w c0 sv sr sm dv dr dm
      = ⟨{ w with channels := (replaceChannelIn w.channels
            { c0 with status := computeKafkaChannelStatus c0.status sv sr sm dv dr dm,
                      resourceVersion := c0.resourceVersion + 1 }) },
          [ChannelApiEvent.updateStatus
            { c0 with status := computeKafkaChannelStatus c0.status sv sr sm dv dr dm }],
          Except.ok ()⟩ :=
    applyStatusUpdate_write_ok w c0 sv sr sm dv dr dm _ hch2 hcall2
  have honce1 : updateStatusOnce w 1 orig sv sr sm dv dr dm
      = (⟨{ w with channels := (replaceChannelIn w.channels
            { c0 with status := computeKafkaChannelStatus c0.status sv sr sm dv dr dm,
                      resourceVersion := c0.resourceVersion + 1 }) },
          [ChannelApiEvent.getChannel orig.ns orig.name,
           ChannelApiEvent.updateStatus
             { c0 with status := computeKafkaChannelStatus c0.status sv sr sm dv dr dm }],
          Except.ok ()⟩, c0) := by
    simp [updateStatusOnce, hfind, happly2]
  have hretry : retryUpdateStatus sv sr sm dv dr dm 5 0 w orig
      = ⟨{ w with channels := (replaceChannelIn w.channels
            { c0 with status := computeKafkaChannelStatus c0.status sv sr sm dv dr dm,
                      resourceVersion := c0.resourceVersion + 1 }) },
          [ChannelApiEvent.updateStatus
             { orig with status := computeKafkaChannelStatus orig.status sv sr sm dv dr dm },
           ChannelApiEvent.getChannel orig.ns orig.name,
           ChannelApiEvent.updateStatus
             { c0 with status := computeKafkaChannelStatus c0.status sv sr sm dv dr dm }],
          Except.ok ()⟩ := by
    rw [show (5 : Nat) = 4 + 1 from rfl, retryUpdateStatus_succ, honce0]
    dsimp only
    rw [show (4 : Nat) = 3 + 1 from rfl, retryUpdateStatus_succ, honce1]
    rfl
  have hupdate : updateKafkaChannelStatus w orig sv sr sm dv dr dm
      = ⟨{ w with channels := (replaceChannelIn w.channels
            { c0 with status := computeKafkaChannelStatus c0.status sv sr sm dv dr dm,
                      resourceVersion := c0.resourceVersion + 1 }) },
          [ChannelApiEvent.updateStatus
             { orig with status := computeKafkaChannelStatus orig.status sv sr sm dv dr dm },
           ChannelApiEvent.getChannel orig.ns orig.name,
           ChannelApiEvent.updateStatus
             { c0 with status := computeKafkaChannelStatus c0.status sv sr sm dv dr dm }],
          Except.ok ()⟩ := hretry
  refine ⟨by rw [hupdate], by rw [hupdate], ?_, ?_⟩
  · rw [hupdate]
    show findChannelIn (replaceChannelIn w.channels _) orig.ns orig.name = _
    rw [← hkey.1, ← hkey.2]
    exact findChannelIn_replace w.channels
      { c0 with status := computeKafkaChannelStatus c0.status sv sr sm dv dr dm,
                resourceVersion := c0.resourceVersion + 1 } c0 hfind2
  · intro w2 o2
    exact retryUpdateStatus_update_bound sv sr sm dv dr dm retrySteps 0 w2 o2

/-- Witness for C3: a stale copy (resource version 1) of a channel stored at
resource version 4 with a different status. -/
theorem updateKafkaChannelStatus_conflict_reload_retry_witness :
    worldCurrent.findChannel chanStale.ns chanStale.name = some chanCurrent
    ∧ worldCurrent.updateFaults.lookup (chanStale.ns, chanStale.name) = none
    ∧ ¬ chanStale.resourceVersion = chanCurrent.resourceVersion
    ∧ ¬ computeKafkaChannelStatus chanStale.status true "" "" true "" "" = chanStale.status
    ∧ ¬ computeKafkaChannelStatus chanCurrent.status true "" "" true "" "" = chanCurrent.status
    ∧ ((updateKafkaChannelStatus worldCurrent chanStale true "" "" true "" "").events
        = [ChannelApiEvent.updateStatus
             { chanStale with status := computeKafkaChannelStatus chanStale.status true "" "" true "" "" },
           ChannelApiEvent.getChannel chanStale.ns chanStale.name,
           ChannelApiEvent.updateStatus
             { chanCurrent with status := computeKafkaChannelStatus chanCurrent.status true "" "" true "" "" }]
      ∧ (updateKafkaChannelStatus worldCurrent chanStale true "" "" true "" "").result = Except.ok ()
      ∧ (updateKafkaChannelStatus worldCurrent chanStale true "" "" true "" "").world.findChannel
            chanStale.ns chanStale.name
          = some { chanCurrent with
                    status := computeKafkaChannelStatus chanCurrent.status true "" "" true "" "",
                    resourceVersion := chanCurrent.resourceVersion + 1 }
      ∧ (∀ (w2 : ChannelWorld) (o2 : KafkaChannel),
          countUpdateCalls (updateKafkaChannelStatus w2 o2 true "" "" true "" "").events ≤ retrySteps)) := by
  exact ⟨by decide, by decide, by decide, by decide, by decide,
    updateKafkaChannelStatus_conflict_reload_retry worldCurrent chanStale chanCurrent
      true "" "" true "" "" (by decide) (by decide) (by decide) (by decide) (by decide)⟩

theorem applyStatusUpdate_preserves_other (w : ChannelWorld) (copy : KafkaChannel)
    (sv : Bool) (sr sm : String) (dv : Bool) (dr dm : String) (ns name : String)
    (hne : ¬(copy.ns = ns ∧ copy.name = name)) :
    (applyStatusUpdate w copy sv sr sm dv dr dm).world.findChannel ns name = w.findChannel ns name
    ∧ (applyStatusUpdate w copy sv sr sm dv dr dm).world.updateFaults = w.updateFaults := by
  by_cases h : computeKafkaChannelStatus copy.status sv sr sm dv dr dm = copy.status
  · rw [applyStatusUpdate_skip w copy sv sr sm dv dr dm h]
    exact ⟨rfl, rfl⟩
  · cases hc : w.updateStatusCall { copy with status := computeKafkaChannelStatus copy.status sv sr sm dv dr dm } with
    | ok w2 =>
      rw [applyStatusUpdate_write_ok w copy sv sr sm dv dr dm w2 h hc]
      exact ⟨updateStatusCall_ok_other w _ w2 ns name hc hne, (updateStatusCall_ok_find w _ w2 hc).2⟩
    | error e =>
      rw [applyStatusUpdate_write_err w copy sv sr sm dv dr dm e h hc]
      exact ⟨rfl, rfl⟩

theorem updateStatusOnce_preserves_other (w : ChannelWorld) (attempts : Nat) (orig : KafkaChannel)
    (sv : Bool) (sr sm : String) (dv : Bool) (dr dm : String) (ns name : String)
    (hne : ¬(orig.ns = ns ∧ orig.name = name)) :
    (updateStatusOnce w attempts orig sv sr sm dv dr dm).1.world.findChannel ns name
        = w.findChannel ns name
    ∧ (updateStatusOnce w attempts orig sv sr sm dv dr dm).1.world.updateFaults = w.updateFaults
    ∧ (updateStatusOnce w attempts orig sv sr sm dv dr dm).2.ns = orig.ns
    ∧ (updateStatusOnce w attempts orig sv sr sm dv dr dm).2.name = orig.name := by
  cases attempts with
  | zero =>
    have hp := applyStatusUpdate_preserves_other w orig sv sr sm dv dr dm ns name hne
    exact ⟨hp.1, hp.2, rfl, rfl⟩
  | succ n =>
    cases hf : w.findChannel orig.ns orig.name with
    | none =>
      simp [updateStatusOnce, hf]
    | some fresh =>
      have hkey := findChannelIn_key w.channels orig.ns orig.name fresh hf
      have hne2 : ¬(fresh.ns = ns ∧ fresh.name = name) := by
        rw [hkey.1, hkey.2]
        exact hne
      have hp := applyStatusUpdate_preserves_other w fresh sv sr sm dv dr dm ns name hne2
      simp only [updateStatusOnce, gt_iff_lt, Nat.zero_lt_succ, if_true, hf]
      exact ⟨hp.1, hp.2, hkey.1, hkey.2⟩

theorem retryUpdateStatus_preserves_other (sv : Bool) (sr sm : String) (dv : Bool) (dr dm : String)
    (ns name : String) :
    ∀ (fuel attempts : Nat) (w : ChannelWorld) (orig : KafkaChannel),
      ¬(orig.ns = ns ∧ orig.name = name) →
      (retryUpdateStatus sv sr sm dv dr dm fuel attempts w orig).world.findChannel ns name
          = w.findChannel ns name
      ∧ (retryUpdateStatus sv sr sm dv dr dm fuel attempts w orig).world.updateFaults
          = w.updateFaults := by
  intro fuel
  induction fuel with
  | zero =>
    intro a w o hne
    exact ⟨rfl, rfl⟩
  | succ n ih =>
    intro a w o hne
    rw [retryUpdateStatus_succ]
    have honce := updateStatusOnce_preserves_other w a o sv sr sm dv dr dm ns name hne
    cases hres : (updateStatusOnce w a o sv sr sm dv dr dm).1.result with
    | ok u =>
      dsimp only
      exact ⟨honce.1, honce.2.1⟩
    | error e =>
      cases e with
      | conflict =>
        dsimp only
        have hne2 : ¬((updateStatusOnce w a o sv sr sm dv dr dm).2.ns = ns
            ∧ (updateStatusOnce w a o sv sr sm dv dr dm).2.name = name) := by
          rw [honce.2.2.1, honce.2.2.2]
          exact hne
        have hrec := ih (a + 1) (updateStatusOnce w a o sv sr sm dv dr dm).1.world
          (updateStatusOnce w a o sv sr sm dv dr dm).2 hne2
        exact ⟨hrec.1.trans honce.1, hrec.2.trans honce.2.1⟩
      | notFound =>
        dsimp only
        exact ⟨honce.1, honce.2.1⟩
      | transient =>
        dsimp only
        exact ⟨honce.1, honce.2.1⟩

theorem updateKafkaChannelStatus_preserves_other (w : ChannelWorld) (orig : KafkaChannel)
    (sv : Bool) (sr sm : String) (dv : Bool) (dr dm : String) (ns name : String)
    (hne : ¬(orig.ns = ns ∧ orig.name = name)) :
    (updateKafkaChannelStatus w orig sv sr sm dv dr dm).world.findChannel ns name
        = w.findChannel ns name
    ∧ (updateKafkaChannelStatus w orig sv sr sm dv dr dm).world.updateFaults = w.updateFaults :=
  retryUpdateStatus_preserves_other sv sr sm dv dr dm ns name retrySteps 0 w orig hne

theorem retryUpdateStatus_ok_stored_fixpoint (sv : Bool) (sr sm : String) (dv : Bool) (dr dm : String) :
    ∀ (fuel attempts : Nat) (w : ChannelWorld) (orig : KafkaChannel),
      w.findChannel orig.ns orig.name = some orig →
      (retryUpdateStatus sv sr sm dv dr dm fuel attempts w orig).result = Except.ok () →
      ∃ c, (retryUpdateStatus sv sr sm dv dr dm fuel attempts w orig).world.findChannel orig.ns orig.name
            = some c
        ∧ computeKafkaChannelStatus c.status sv sr sm dv dr dm = c.status := by
  intro fuel
  induction fuel with
  | zero =>
    intro a w o hfind hok
    exact absurd hok (by simp [retryUpdateStatus])
  | succ n ih =>
    intro a w o hfind hok
    have hstep : (updateStatusOnce w a o sv sr sm dv dr dm).1
          = applyStatusUpdate w o sv sr sm dv dr dm
        ∨ (updateStatusOnce w a o sv sr sm dv dr dm).1
          = AttemptResult.mk (applyStatusUpdate w o sv sr sm dv dr dm).world
              (ChannelApiEvent.getChannel o.ns o.name
                :: (applyStatusUpdate w o sv sr sm dv dr dm).events)
              (applyStatusUpdate w o sv sr sm dv dr dm).result := by
      cases a with
      | zero => exact Or.inl (by simp [updateStatusOnce])
      | succ m =>
        refine Or.inr ?_
        simp only [updateStatusOnce]
        rw [hfind, if_pos (Nat.succ_pos m)]
    have hstep2 : (updateStatusOnce w a o sv sr sm dv dr dm).2 = o := by
      cases a with
      | zero => simp [updateStatusOnce]
      | succ m =>
        simp only [updateStatusOnce]
        rw [hfind, if_pos (Nat.succ_pos m)]
    have hstepw : (updateStatusOnce w a o sv sr sm dv dr dm).1.world
        = (applyStatusUpdate w o sv sr sm dv dr dm).world := by
      rcases hstep with h | h <;> rw [h]
    have hstepr : (updateStatusOnce w a o sv sr sm dv dr dm).1.result
        = (applyStatusUpdate w o sv sr sm dv dr dm).result := by
      rcases hstep with h | h <;> rw [h]
    by_cases hc : computeKafkaChannelStatus o.status sv sr sm dv dr dm = o.status
    · have happly := applyStatusUpdate_skip w o sv sr sm dv dr dm hc
      have hres : (updateStatusOnce w a o sv sr sm dv dr dm).1.result = Except.ok () := by
        rw [hstepr, happly]
      rw [retryUpdateStatus_succ, hres]
      dsimp only
      refine ⟨o, ?_, hc⟩
      rw [hstepw, happly]
      exact hfind
    · cases hcall : w.updateStatusCall { o with status := computeKafkaChannelStatus o.status sv sr sm dv dr dm } with
      | ok w2 =>
        have happly := applyStatusUpdate_write_ok w o sv sr sm dv dr dm w2 hc hcall
        have hres : (updateStatusOnce w a o sv sr sm dv dr dm).1.result = Except.ok () := by
          rw [hstepr, happly]
        rw [retryUpdateStatus_succ, hres]
        dsimp only
        have hfound := updateStatusCall_ok_find w _ w2 hcall
        refine ⟨{ o with status := computeKafkaChannelStatus o.status sv sr sm dv dr dm, resourceVersion := o.resourceVersion + 1 }, ?_, ?_⟩
        · rw [hstepw, happly]
          exact hfound.1
        · exact computeKafkaChannelStatus_idem o.status sv sr sm dv dr dm
      | error e =>
        have happly := applyStatusUpdate_write_err w o sv sr sm dv dr dm e hc hcall
        have hres : (updateStatusOnce w a o sv sr sm dv dr dm).1.result = Except.error e := by
          rw [hstepr, happly]
        cases e with
        | conflict =>
          rw [retryUpdateStatus_succ, hres] at hok ⊢
          dsimp only at hok ⊢
          have hworldw : (updateStatusOnce w a o sv sr sm dv dr dm).1.world = w := by
            rw [hstepw, happly]
          rw [hworldw, hstep2] at hok ⊢
          exact ih (a + 1) w o hfind hok
        | notFound =>
          rw [retryUpdateStatus_succ, hres] at hok
          dsimp only at hok
          cases hok
        | transient =>
          rw [retryUpdateStatus_succ, hres] at hok
          dsimp only at hok
          cases hok

theorem fanoutLoop_keys (sv : Bool) (sr sm : String) (dv : Bool) (dr dm : String) :
    ∀ (l : List KafkaChannel) (w : ChannelWorld),
      (fanoutLoop sv sr sm dv dr dm l w).2.2.map Prod.fst = l.map (fun c => (c.ns, c.name)) := by
  intro l
  induction l with
  | nil => intro w; simp [fanoutLoop]
  | cons ch rest ih =>
    intro w
    simp only [fanoutLoop, List.map_cons, List.map]
    rw [ih]

theorem fanoutLoop_preserves_other (sv : Bool) (sr sm : String) (dv : Bool) (dr dm : String)
    (ns name : String) :
    ∀ (l : List KafkaChannel) (w : ChannelWorld),
      (∀ ch ∈ l, ¬(ch.ns = ns ∧ ch.name = name)) →
      (fanoutLoop sv sr sm dv dr dm l w).1.findChannel ns name = w.findChannel ns name := by
  intro l
  induction l with
  | nil => intro w _; rfl
  | cons ch rest ih =>
    intro w hl
    have h1 := updateKafkaChannelStatus_preserves_other w ch sv sr sm dv dr dm ns name
      (hl ch (List.mem_cons_self ch rest))
    have h2 := ih (updateKafkaChannelStatus w ch sv sr sm dv dr dm).world
      (fun c hc => hl c (List.mem_cons_of_mem ch hc))
    simp only [fanoutLoop]
    exact h2.trans h1.1

theorem fanoutLoop_retention (sv : Bool) (sr sm : String) (dv : Bool) (dr dm : String) :
    ∀ (l : List KafkaChannel) (w : ChannelWorld),
      (l.map (fun c => (c.ns, c.name))).Nodup →
      (∀ ch ∈ l, w.findChannel ch.ns ch.name = some ch) →
      ∀ p ∈ (fanoutLoop sv sr sm dv dr dm l w).2.2, p.2 = true →
        ∃ c, (fanoutLoop sv sr sm dv dr dm l w).1.findChannel p.1.1 p.1.2 = some c
          ∧ computeKafkaChannelStatus c.status sv sr sm dv dr dm = c.status := by
  intro l
  induction l with
  | nil =>
    intro w _ _ p hp
    simp [fanoutLoop] at hp
  | cons ch rest ih =>
    intro w hnd hinv p hp hok
    rw [List.map_cons, List.nodup_cons] at hnd
    have hheadkey : ∀ c2 ∈ rest, ¬(c2.ns = ch.ns ∧ c2.name = ch.name) := by
      intro c2 hc2 hcontra
      exact hnd.1 (by
        rw [show ((ch.ns, ch.name) : String × String) = (c2.ns, c2.name) by
          rw [hcontra.1, hcontra.2]]
        exact List.mem_map_of_mem (fun c => (c.ns, c.name)) hc2)
    simp only [fanoutLoop] at hp ⊢
    rcases List.mem_cons.mp hp with hphead | hptail
    · subst hphead
      simp only at hok
      have hres : (updateKafkaChannelStatus w ch sv sr sm dv dr dm).result = Except.ok () := by
        cases hres2 : (updateKafkaChannelStatus w ch sv sr sm dv dr dm).result with
        | ok u => cases u; rfl
        | error e => rw [hres2] at hok; cases hok
      have hfix := retryUpdateStatus_ok_stored_fixpoint sv sr sm dv dr dm retrySteps 0 w ch
        (hinv ch (List.mem_cons_self ch rest)) hres
      rcases hfix with ⟨c, hcfind, hcfix⟩
      refine ⟨c, ?_, hcfix⟩
      have hpres := fanoutLoop_preserves_other sv sr sm dv dr dm ch.ns ch.name rest
        (updateKafkaChannelStatus w ch sv sr sm dv dr dm).world hheadkey
      simp only
      exact hpres.trans hcfind
    · have hinv2 : ∀ c2 ∈ rest,
          (updateKafkaChannelStatus w ch sv sr sm dv dr dm).world.findChannel c2.ns c2.name = some c2 := by
        intro c2 hc2
        have hne : ¬(ch.ns = c2.ns ∧ ch.name = c2.name) := by
          intro hcontra
          exact (hheadkey c2 hc2) ⟨hcontra.1.symm, hcontra.2.symm⟩
        have := updateKafkaChannelStatus_preserves_other w ch sv sr sm dv dr dm c2.ns c2.name hne
        rw [this.1]
        exact hinv c2 (List.mem_cons_of_mem ch hc2)
      exact ih (updateKafkaChannelStatus w ch sv sr sm dv dr dm).world hnd.2 hinv2 p hptail hok

theorem fanout_result_iff (pcs : List ((String × String) × Bool)) :
    ((if pcs.any (fun p => !p.2) then
        (Except.error "failed to update Status of one or more KafkaChannels" : Except String Unit)
      else Except.ok ())
        = Except.error "failed to update Status of one or more KafkaChannels"
      ↔ ∃ p ∈ pcs, p.2 = false)
    ∧ ((if pcs.any (fun p => !p.2) then
        (Except.error "failed to update Status of one or more KafkaChannels" : Except String Unit)
      else Except.ok ()) = Except.ok ()
      ↔ ∀ p ∈ pcs, p.2 = true) := by
  cases hany : pcs.any (fun p => !p.2) with
  | true =>
    rcases List.any_eq_true.mp hany with ⟨p, hp, hpf⟩
    rw [Bool.not_eq_true'] at hpf
    constructor
    · rw [if_pos rfl]
      exact ⟨fun _ => ⟨p, hp, hpf⟩, fun _ => rfl⟩
    · rw [if_pos rfl]
      constructor
      · intro hcontra
        cases hcontra
      · intro hall
        rw [hall p hp] at hpf
        cases hpf
  | false =>
    have hall : ∀ p ∈ pcs, p.2 = true := by
      intro p hp
      cases hp2 : p.2 with
      | true => rfl
      | false =>
        have hx : pcs.any (fun q => !q.2) = true :=
          List.any_eq_true.mpr ⟨p, hp, by rw [hp2]; rfl⟩
        rw [hany] at hx
        cases hx
    constructor
    · rw [if_neg Bool.false_ne_true]
      constructor
      · intro hcontra
        cases hcontra
      · intro hex
        rcases hex with ⟨p, hp, hpf⟩
        rw [hall p hp] at hpf
        cases hpf
    · rw [if_neg Bool.false_ne_true]
      exact ⟨fun _ => hall, fun _ => rfl⟩

/-- C8: best-effort fan-out.  Every listed channel gets its own update attempt
(the per-channel outcome list covers the whole listed set even when some
updates fail), the aggregate error is reported exactly when at least one
per-channel update failed (success exactly when all succeeded), and — for
distinct channel keys — every individually successful update is retained: the
store afterwards holds, for each successful channel, a status already
reflecting the specified service/deployment state. -/
theorem reconcileKafkaChannelStatus_best_effort_fanout
    (w : ChannelWorld) (secretName : String)
    (sv : Bool) (sr sm : String) (dv : Bool) (dr dm : String)
    (hnd : ((reconcileKafkaChannelStatus w secretName sv sr sm dv dr dm).listed.map
        (fun c => (c.ns, c.name))).Nodup)
    (hinv : ∀ ch ∈ (reconcileKafkaChannelStatus w secretName sv sr sm dv dr dm).listed,
        w.findChannel ch.ns ch.name = some ch) :
    (reconcileKafkaChannelStatus w secretName sv sr sm dv dr dm).perChannel.map Prod.fst
        = (reconcileKafkaChannelStatus w secretName sv sr sm dv dr dm).listed.map
            (fun c => (c.ns, c.name))
    ∧ ((reconcileKafkaChannelStatus w secretName sv sr sm dv dr dm).result
          = Except.error "failed to update Status of one or more KafkaChannels"
        ↔ ∃ p ∈ (reconcileKafkaChannelStatus w secretName sv sr sm dv dr dm).perChannel, p.2 = false)
    ∧ ((reconcileKafkaChannelStatus w secretName sv sr sm dv dr dm).result = Except.ok ()
        ↔ ∀ p ∈ (reconcileKafkaChannelStatus w secretName sv sr sm dv dr dm).perChannel, p.2 = true)
    ∧ (∀ p ∈ (reconcileKafkaChannelStatus w secretName sv sr sm dv dr dm).perChannel, p.2 = true →
        ∃ c, (reconcileKafkaChannelStatus w secretName sv sr sm dv dr dm).world.findChannel p.1.1 p.1.2
              = some c
          ∧ computeKafkaChannelStatus c.status sv sr sm dv dr dm = c.status) := by
  refine ⟨?_, ?_, ?_, ?_⟩
  · exact fanoutLoop_keys sv sr sm dv dr dm _ w
  · exact (fanout_result_iff _).1
  · exact (fanout_result_iff _).2
  · exact fanoutLoop_retention sv sr sm dv dr dm _ w hnd hinv

/-- Witness for C8: three channels, the middle one with an injected update
fault; all are attempted, the aggregate call fails, the other two updates are
retained. -/
theorem reconcileKafkaChannelStatus_best_effort_fanout_witness :
    ((reconcileKafkaChannelStatus worldABC "secret-a" true "r" "m" false "dr" "dm").listed.map
        (fun c => (c.ns, c.name))).Nodup
    ∧ (∀ ch ∈ (reconcileKafkaChannelStatus worldABC "secret-a" true "r" "m" false "dr" "dm").listed,
        worldABC.findChannel ch.ns ch.name = some ch)
    ∧ ((reconcileKafkaChannelStatus worldABC "secret-a" true "r" "m" false "dr" "dm").perChannel.map Prod.fst
        = (reconcileKafkaChannelStatus worldABC "secret-a" true "r" "m" false "dr" "dm").listed.map
            (fun c => (c.ns, c.name))
      ∧ ((reconcileKafkaChannelStatus worldABC "secret-a" true "r" "m" false "dr" "dm").result
            = Except.error "failed to update Status of one or more KafkaChannels"
          ↔ ∃ p ∈ (reconcileKafkaChannelStatus worldABC "secret-a" true "r" "m" false "dr" "dm").perChannel,
              p.2 = false)
      ∧ ((reconcileKafkaChannelStatus worldABC "secret-a" true "r" "m" false "dr" "dm").result = Except.ok ()
          ↔ ∀ p ∈ (reconcileKafkaChannelStatus worldABC "secret-a" true "r" "m" false "dr" "dm").perChannel,
              p.2 = true)
      ∧ (∀ p ∈ (reconcileKafkaChannelStatus worldABC "secret-a" true "r" "m" false "dr" "dm").perChannel,
          p.2 = true →
          ∃ c, (reconcileKafkaChannelStatus worldABC "secret-a" true "r" "m" false "dr" "dm").world.findChannel
                p.1.1 p.1.2 = some c
            ∧ computeKafkaChannelStatus c.status true "r" "m" false "dr" "dm" = c.status)) := by
  exact ⟨by decide, by decide,
    reconcileKafkaChannelStatus_best_effort_fanout worldABC "secret-a" true "r" "m" false "dr" "dm"
      (by decide) (by decide)⟩

end EventingKafka
